import Mathlib

/-!
Verification of the Reconciliation and Reference-Rewriting Engine of the
EightfoldMigration repository.

The two modules under verification are `form_and_question_id_updater.py`
(embedded below in namespace `FormSync`) and
`dependency_question_id_updater.py` (namespace `DepSync`).  Shared data
structures — JSON values, Python-style ordered dictionaries (association
lists with update-in-place / append semantics), Python string helpers —
live at the top level.

Python `dict`s preserve insertion order; assignment to an existing key
updates the stored value in place, assignment to a fresh key appends.
They are modelled as association lists (`List (α × β)`) together with the
`alookup` / `aset` operations below.  Python `set`s are modelled as lists
queried only through membership, extended with `saddElem` (add if absent).
Machine integers do not overflow in Python, so IDs are plain `Int`.
-/

/-- Lookup in a Python dict modelled as an association list
(first binding wins; dicts built through `aset` have distinct keys). -/
def alookup {α β : Type} [DecidableEq α] : List (α × β) → α → Option β
  | [], _ => none
  | (k, v) :: l, a => if a = k then some v else alookup l a

/-- Python dict assignment `d[a] = b`: update in place if the key exists
(keeping its position), otherwise append the new binding. -/
def aset {α β : Type} [DecidableEq α] : List (α × β) → α → β → List (α × β)
  | [], a, b => [(a, b)]
  | (k, v) :: l, a, b => if k = a then (k, b) :: l else (k, v) :: aset l a b

/-- `d.keys()` of a Python dict. -/
def akeys {α β : Type} : List (α × β) → List α := List.map Prod.fst

/-- `d.values()` of a Python dict. -/
def avalues {α β : Type} : List (α × β) → List β := List.map Prod.snd

/-- Python `set.add`: append the element if it is not already present. -/
def saddElem {α : Type} [DecidableEq α] (l : List α) (a : α) : List α :=
  if a ∈ l then l else l ++ [a]

/-- `Counter[(a)] += 1` on a counter modelled as an ordered association list. -/
def counterInc {α : Type} [DecidableEq α] : List (α × Nat) → α → List (α × Nat)
  | [], a => [(a, 1)]
  | (k, n) :: l, a => if k = a then (k, n + 1) :: l else (k, n) :: counterInc l a

/-! ### Python string primitives -/

/-- Python `str.isdigit` restricted to the ASCII data handled by the tool:
non-empty and every character a decimal digit. -/
def pyIsDigitStr (s : String) : Bool :=
  !s.data.isEmpty && s.data.all Char.isDigit

/-- Numeric value of a decimal digit string (`int(s)` for `s.isdigit()`). -/
def pyIntOfDigits (s : String) : Int :=
  (s.data.foldl (fun n c => n * 10 + (c.toNat - 48)) 0 : Nat)

/-- Python `int(s)`: in this code base it is only ever applied to regex
groups and digit-checked strings; a non-digit argument raises `ValueError`. -/
def pyIntStrict (s : String) : Except String Int :=
  if pyIsDigitStr s then .ok (pyIntOfDigits s) else .error s

/-- Python `str(n)` for an integer. -/
def pyStrOfInt (n : Int) : String := toString n

/-- The characters matched by the regex class `\s` (ASCII portion; the
source data is ASCII so the Unicode spaces are not modelled). -/
def pyIsSpace (c : Char) : Bool :=
  c = ' ' || c = '\t' || c = '\n' || c = '\r' || c = '\x0b' || c = '\x0c'

/-! ### JSON values

Decoded JSON documents (`json.loads` output) as they flow through the
engine: objects are insertion-ordered string-keyed dicts, hence
association lists.  Python `bool` is a subclass of `int`; the embedding
keeps the two constructors separate and models every
`isinstance(_, bool)` / `isinstance(_, int)` dispatch of the source
explicitly at each site, including `True == 1` inside `pyEq` below. -/

inductive JValue where
  | jnull
  | jbool (b : Bool)
  | jint (n : Int)
  | jstr (s : String)
  | jarr (xs : List JValue)
  | jobj (fields : List (String × JValue))

open JValue

mutual
/-- Python `==` on decoded JSON values: dict comparison ignores key order,
`bool` compares equal to the corresponding `int` (`True == 1`). -/
def pyEq : JValue → JValue → Bool
  | .jnull, .jnull => true
  | .jbool a, .jbool b => a = b
  | .jbool a, .jint n => (if a then (1 : Int) else 0) = n
  | .jint n, .jbool a => n = (if a then (1 : Int) else 0)
  | .jint a, .jint b => a = b
  | .jstr a, .jstr b => a = b
  | .jarr xs, .jarr ys => pyEqList xs ys
  | .jobj fs, .jobj gs => pyEqObjVals fs gs && (akeys gs).all (fun k => k ∈ akeys fs)
  | _, _ => false

def pyEqList : List JValue → List JValue → Bool
  | [], [] => true
  | x :: xs, y :: ys => pyEq x y && pyEqList xs ys
  | _, _ => false

def pyEqObjVals : List (String × JValue) → List (String × JValue) → Bool
  | [], _ => true
  | (k, v) :: fs, gs =>
    (match alookup gs k with
     | some w => pyEq v w
     | none => false) && pyEqObjVals fs gs
end

/-! ### `canonicalize`: `json.dumps(obj, sort_keys=True, separators=(",", ":"), ensure_ascii=False)`

Both modules define the same `canonicalize`.  String escaping follows the
CPython `json` encoder with `ensure_ascii=False`: `"` and `\` are escaped,
the named control characters use their short escapes, remaining control
characters use `\u00XX`, everything else is emitted verbatim. -/

/-- Lower-case hexadecimal digit. -/
def hexDigit (n : Nat) : Char :=
  if n < 10 then Char.ofNat (48 + n) else Char.ofNat (87 + n)

/-- Four-digit lower-case hexadecimal rendering used by `\uXXXX` escapes. -/
def hex4 (n : Nat) : String :=
  String.mk [hexDigit (n / 4096 % 16), hexDigit (n / 256 % 16),
             hexDigit (n / 16 % 16), hexDigit (n % 16)]

/-- One character of a JSON string literal, `ensure_ascii=False`. -/
def jsonEscapeChar (c : Char) : String :=
  if c = '"' then "\\\""
  else if c = '\\' then "\\\\"
  else if c = '\x08' then "\\b"
  else if c = '\t' then "\\t"
  else if c = '\n' then "\\n"
  else if c = '\x0c' then "\\f"
  else if c = '\r' then "\\r"
  else if c.toNat < 32 then "\\u" ++ hex4 c.toNat
  else String.singleton c

/-- JSON string literal, `ensure_ascii=False`. -/
def jsonEncodeString (s : String) : String :=
  "\"" ++ String.join (s.data.map jsonEscapeChar) ++ "\""

/-- The key order produced by `sort_keys=True`: ascending by raw key. -/
def sortByKey (l : List (String × String)) : List (String × String) :=
  List.insertionSort (fun a b => a.1 ≤ b.1) l

mutual
/-- `canonicalize(obj)` = `json.dumps(obj, sort_keys=True, separators=(",", ":"), ensure_ascii=False)`
(shared verbatim by both modules). -/
def canonicalize : JValue → String
  | .jnull => "null"
  | .jbool true => "true"
  | .jbool false => "false"
  | .jint n => pyStrOfInt n
  | .jstr s => jsonEncodeString s
  | .jarr xs => "[" ++ String.intercalate "," (canonList xs) ++ "]"
  | .jobj fs =>
    "\x7b" ++
      String.intercalate ","
        ((sortByKey (canonFields fs)).map
          (fun kv => jsonEncodeString kv.1 ++ ":" ++ kv.2)) ++
      "\x7d"

def canonList : List JValue → List String
  | [] => []
  | v :: vs => canonicalize v :: canonList vs

def canonFields : List (String × JValue) → List (String × String)
  | [] => []
  | kv :: fs => (kv.1, canonicalize kv.2) :: canonFields fs
end

/-! ### Error taxonomy

Both Python modules raise a single exception class (`SyncError` /
`DependencyUpdateError`) whose message identifies the failure; the
embedding distinguishes the raise sites by constructor and carries the
data interpolated into each message. -/

inductive Err where
  /-- `to_int`: `Expected numeric ID, received {value!r}`. -/
  | toIntErr (v : JValue)
  /-- Length mismatch between the question-ID lists of a matched form
  (`form_and_question_id_updater.py:118`, `dependency_question_id_updater.py:82`). -/
  | shapeLen (form : String) (nsrc ntgt : Nat)
  /-- `Conflicting mappings for question {src}: {existing} vs {tgt}`
  (`form_and_question_id_updater.py:125`). -/
  | conflict (src existing new : Int)
  /-- Label/type mismatch of a positional pair (`form_and_question_id_updater.py:139`). -/
  | mismatch (form : String) (src tgt : Int)
  /-- `Ambiguous matches for source question {src} in form {name}: {candidates}`
  (`dependency_question_id_updater.py:134` and `:147`). -/
  | ambiguous (src : Int) (form : String) (candidates : List Int)
  /-- `Unable to locate a matching target question for {src} in form {name}`
  (`dependency_question_id_updater.py:152`). -/
  | unresolvedQuestion (src : Int) (form : String)
  /-- Form-entry shape validation failure (`form_and_question_id_updater.py:81` / `:87`). -/
  | badFormEntry (context : String) (index : Nat)
  /-- `Conflicting values encountered when updating key {key}`
  (`dependency_question_id_updater.py:310`). -/
  | conflictKey (key : String)
  /-- Python `ValueError` from `int()` on a non-numeric regex group. -/
  | valueError (s : String)
  /-- `Expected to replace {count} occurrences of {old} but replaced {replaced}`
  (`form_and_question_id_updater.py:283`). -/
  | countMismatch (old : Int) (expected got : Nat)
  /-- `Text replacements did not produce the expected workflow configuration`
  (`form_and_question_id_updater.py:289`). -/
  | consistency
  /-- `json.JSONDecodeError` while re-parsing the patched text. -/
  | jsonDecode (msg : String)
  /-- `Unable to find target questions matching the following source IDs by content`
  (`form_and_question_id_updater.py:268`). -/
  | unresolvedSources (ids : List Int)
  /-- `Found references to source question IDs without target mappings`
  (`dependency_question_id_updater.py:375`). -/
  | missingMapping (ids : List Int)

/-- Whether an error is the matched-form length check (the spec calls this
kind `ShapeError`). -/
def Err.isShapeLen : Err → Prop
  | .shapeLen _ _ _ => True
  | _ => False

instance : DecidablePred Err.isShapeLen := by
  intro e
  cases e <;> simp [Err.isShapeLen] <;> infer_instance

/-! ### `TARGET_BLANK_ATTR_PATTERN` and `normalize_label`
(`form_and_question_id_updater.py:23` and `:65`)

`TARGET_BLANK_ATTR_PATTERN = re.compile(r"\s+target=\"_blank\"")` and
`normalize_label` replaces every match with the empty string.  A match of
the pattern is a run of whitespace immediately followed by the literal
`target="_blank"`; since the literal starts with a non-space character,
the greedy `\s+` can only succeed on the maximal whitespace run starting
at the match position.  The scanner below consumes one character of fuel
per input character, so `fuel = length + 1` always suffices. -/

/-- The 15 characters of the literal `target="_blank"`. -/
def targetBlankLit : List Char := "target=\"_blank\"".data

/-- One left-to-right pass of `TARGET_BLANK_ATTR_PATTERN.sub("", ·)`. -/
def stripTargetBlankGo : Nat → List Char → List Char
  | 0, cs => cs
  | _ + 1, [] => []
  | fuel + 1, c :: rest =>
    if pyIsSpace c then
      let after := (c :: rest).dropWhile pyIsSpace
      if targetBlankLit.isPrefixOf after then
        stripTargetBlankGo fuel (after.drop targetBlankLit.length)
      else
        c :: stripTargetBlankGo fuel rest
    else
      c :: stripTargetBlankGo fuel rest

/-- `TARGET_BLANK_ATTR_PATTERN.sub("", s)`. -/
def stripTargetBlank (s : String) : String :=
  String.mk (stripTargetBlankGo (s.data.length + 1) s.data)

namespace FormSync

/-- `normalize_label` (`form_and_question_id_updater.py:65-68`): strip the
inert attribute from string labels, pass every other value through. -/
def normalize_label : JValue → JValue
  | .jstr s => .jstr (stripTargetBlank s)
  | v => v

/-- `to_int` (`form_and_question_id_updater.py:37-42`).  Python `bool` is a
subclass of `int`, so `isinstance(value, int)` accepts booleans here and
`True` converts to `1`. -/
def to_int : JValue → Except Err Int
  | .jint n => .ok n
  | .jbool b => .ok (if b then 1 else 0)
  | .jstr s => if pyIsDigitStr s then .ok (pyIntOfDigits s) else .error (.toIntErr (.jstr s))
  | v => .error (.toIntErr v)

/-- `sanitize_question` (`form_and_question_id_updater.py:71-75`): drop the
`id` field, normalize the label in place when present, serialize
canonically. -/
def sanitize_question (q : List (String × JValue)) : String :=
  let payload := q.filter (fun kv => kv.1 ≠ "id")
  let payload :=
    match alookup payload "label" with
    | some l => aset payload "label" (normalize_label l)
    | none => payload
  canonicalize (.jobj payload)

end FormSync

namespace DepSync

/-- `to_int` (`dependency_question_id_updater.py:46-51`): unlike the
form-updater variant this one rejects booleans explicitly
(`isinstance(value, int) and not isinstance(value, bool)`). -/
def to_int : JValue → Except Err Int
  | .jint n => .ok n
  | .jstr s => if pyIsDigitStr s then .ok (pyIntOfDigits s) else .error (.toIntErr (.jstr s))
  | v => .error (.toIntErr v)

/-- `sanitize_question` (`dependency_question_id_updater.py:58-60`): drop
the `id` field and serialize canonically.  This variant performs no label
normalization. -/
def sanitize_question (q : List (String × JValue)) : String :=
  canonicalize (.jobj (q.filter (fun kv => kv.1 ≠ "id")))

end DepSync

/-! ### Forms

A form record is a JSON object; the mapping code reads its
`display_name` (validated to be a non-empty string by the form updater)
and `data_json.question_ids` (a list of raw JSON values fed to `to_int`).
The embedding models exactly those fields. -/

structure Form where
  display_name : String
  /-- `form.get("data_json", {}).get("question_ids", [])`, still raw. -/
  question_ids : List JValue

/-- `{form["display_name"]: form for form in forms}`: name-keyed index,
last write wins on duplicate names. -/
def indexFormsByName (forms : List Form) : List (String × Form) :=
  forms.foldl (fun acc f => aset acc f.display_name f) []

/-- A question record: the raw JSON object keyed by field name. -/
abbrev Question := List (String × JValue)

/-- `{to_int(q["id"]): q for q in questions}`: the ID-keyed question bank. -/
abbrev QBank := List (Int × Question)

/-- Python `==` lifted to `Optional` values (`None == None` is `True`). -/
def pyEqOpt : Option JValue → Option JValue → Bool
  | none, none => true
  | some a, some b => pyEq a b
  | _, _ => false

/-- The loose signature `(question.get("label"), question.get("question_type"))`. -/
abbrev LooseSig := Option JValue × Option JValue

/-- Python `==` on loose-signature tuples. -/
def pyEqLoose (a b : LooseSig) : Bool :=
  pyEqOpt a.1 b.1 && pyEqOpt a.2 b.2

/-- Ascending `sorted(...)` on integer lists. -/
def sortInts (l : List Int) : List Int :=
  List.insertionSort (fun a b => a ≤ b) l

namespace FormSync

/-- `validate_form_entries` (`form_and_question_id_updater.py:78-90`)
specialized to the modelled `Form` shape: every entry must carry a
non-empty `display_name` (the `isinstance(form, Mapping)` half cannot fail
on a decoded `Form`). -/
def validate_form_entries (context : String) : Nat → List Form → Except Err Unit
  | _, [] => .ok ()
  | i, f :: fs =>
    if f.display_name = "" then .error (.badFormEntry context i)
    else validate_form_entries context (i + 1) fs

/-- `index_forms_by_name` (`form_and_question_id_updater.py:93-95`). -/
def index_forms_by_name (forms : List Form) (context : String) :
    Except Err (List (String × Form)) := do
  let _ ← validate_form_entries context 0 forms
  return indexFormsByName forms

/-- The body of the per-pair loop of `build_question_map`
(`form_and_question_id_updater.py:122-153`): conflict check against the
map built so far, then content verification when both question records
exist, then the positional insertion. -/
def formPairStep (name : String) (srcQs tgtQs : QBank)
    (qmap : List (Int × Int)) (src_qid tgt_qid : Int) :
    Except Err (List (Int × Int)) := do
  match alookup qmap src_qid with
  | some existing =>
    if existing ≠ tgt_qid then
      throw (.conflict src_qid existing tgt_qid)
  | none => pure ()
  match alookup srcQs src_qid, alookup tgtQs tgt_qid with
  | some sq, some tq =>
    let src_label := (alookup sq "label").map normalize_label
    let tgt_label := (alookup tq "label").map normalize_label
    if !pyEqOpt src_label tgt_label
        || !pyEqOpt (alookup sq "question_type") (alookup tq "question_type") then
      throw (.mismatch name src_qid tgt_qid)
  | _, _ =>
    -- If only one side is present the content cannot be validated but the
    -- positional mapping is still recorded (source comment, lines 148-151).
    pure ()
  return aset qmap src_qid tgt_qid

/-- The per-form body of `build_question_map`
(`form_and_question_id_updater.py:108-153`). -/
def formProcessForm (srcQs tgtQs : QBank) (tgtByName : List (String × Form))
    (qmap : List (Int × Int)) (src : Form) : Except Err (List (Int × Int)) :=
  match alookup tgtByName src.display_name with
  | none => .ok qmap
  | some tgt => do
    let source_ids ← src.question_ids.mapM to_int
    let target_ids ← tgt.question_ids.mapM to_int
    if source_ids.length ≠ target_ids.length then
      throw (.shapeLen src.display_name source_ids.length target_ids.length)
    (source_ids.zip target_ids).foldlM
      (fun m p => formPairStep src.display_name srcQs tgtQs m p.1 p.2) qmap

/-- `build_question_map` (`form_and_question_id_updater.py:98-155`). -/
def build_question_map (source_forms target_forms : List Form)
    (srcQs tgtQs : QBank) : Except Err (List (Int × Int)) := do
  let _ ← validate_form_entries "Source forms library" 0 source_forms
  let tgtByName ← index_forms_by_name target_forms "Target forms library"
  source_forms.foldlM (formProcessForm srcQs tgtQs tgtByName) []

end FormSync

namespace DepSync

/-- `tgt_full_signatures` (`dependency_question_id_updater.py:86-91`). -/
def depTargetFull (tgtQs : QBank) (tgt_ids : List Int) : List (Int × String) :=
  tgt_ids.foldl
    (fun acc tid =>
      match alookup tgtQs tid with
      | some q => aset acc tid (sanitize_question q)
      | none => acc) []

/-- `tgt_loose_signatures` (`dependency_question_id_updater.py:87-95`). -/
def depTargetLoose (tgtQs : QBank) (tgt_ids : List Int) : List (Int × LooseSig) :=
  tgt_ids.foldl
    (fun acc tid =>
      match alookup tgtQs tid with
      | some q => aset acc tid (alookup q "label", alookup q "question_type")
      | none => acc) []

/-- The positional candidate test (`dependency_question_id_updater.py:115-123`):
accept the same-index target when it is unconsumed and either the source
record is missing (no signature), or the full signatures agree, or —
failing that — the loose signatures agree. -/
def depPositional (tgtFull : List (Int × String)) (tgtLoose : List (Int × LooseSig))
    (used : List Int) (tgt_ids : List Int) (index : Nat)
    (signature : Option String) (loose : Option LooseSig) : Option Int :=
  if h : index < tgt_ids.length then
    let direct := tgt_ids.get ⟨index, h⟩
    if direct ∈ used then none
    else if signature = none then some direct
    else if alookup tgtFull direct = signature then some direct
    else
      match loose, alookup tgtLoose direct with
      | some l, some dl => if pyEqLoose dl l then some direct else none
      | _, _ => none
  else none

/-- Mapping state threaded through `build_question_map`: the question map
built so far plus the per-form set of consumed target IDs. -/
structure DepState where
  qmap : List (Int × Int)
  used : List Int

/-- The body of the per-source-question loop of `build_question_map`
(`dependency_question_id_updater.py:99-157`): skip already-mapped sources,
try the positional candidate, then a unique full-signature match over the
whole form (ambiguity fatal), then a unique loose-signature match
(ambiguity fatal), else fail as unresolved. -/
def depStep (name : String) (srcQs : QBank) (tgt_ids : List Int)
    (tgtFull : List (Int × String)) (tgtLoose : List (Int × LooseSig))
    (st : DepState) (index : Nat) (src_id : Int) : Except Err DepState :=
  match alookup st.qmap src_id with
  | some mapped =>
    if mapped ∈ tgt_ids then .ok ⟨st.qmap, saddElem st.used mapped⟩ else .ok st
  | none =>
    let src_question := alookup srcQs src_id
    let signature := src_question.map sanitize_question
    let loose := src_question.map (fun q => ((alookup q "label", alookup q "question_type") : LooseSig))
    let record := fun (c : Int) => DepState.mk (aset st.qmap src_id c) (saddElem st.used c)
    match depPositional tgtFull tgtLoose st.used tgt_ids index signature loose with
    | some c => .ok (record c)
    | none =>
      let afterFull : Except Err DepState :=
        match loose with
        | some l =>
          let candidates := tgt_ids.filter
            (fun tid => !st.used.contains tid &&
              (match alookup tgtLoose tid with
               | some dl => pyEqLoose dl l
               | none => false))
          match candidates with
          | [c] => .ok (record c)
          | [] => .error (.unresolvedQuestion src_id name)
          | cs => .error (.ambiguous src_id name cs)
        | none => .error (.unresolvedQuestion src_id name)
      match signature with
      | some sig =>
        let candidates := tgt_ids.filter
          (fun tid => !st.used.contains tid && alookup tgtFull tid == some sig)
        match candidates with
        | [c] => .ok (record c)
        | [] => afterFull
        | cs => .error (.ambiguous src_id name cs)
      | none => afterFull

/-- The per-form body of `build_question_map`
(`dependency_question_id_updater.py:72-157`). -/
def depProcessForm (srcQs tgtQs : QBank) (tgtByName : List (String × Form))
    (qmap : List (Int × Int)) (src : Form) : Except Err (List (Int × Int)) :=
  match alookup tgtByName src.display_name with
  | none => .ok qmap
  | some tgt => do
    let src_ids ← src.question_ids.mapM to_int
    let tgt_ids ← tgt.question_ids.mapM to_int
    if tgt_ids.length < src_ids.length then
      throw (.shapeLen src.display_name src_ids.length tgt_ids.length)
    let tgtFull := depTargetFull tgtQs tgt_ids
    let tgtLoose := depTargetLoose tgtQs tgt_ids
    let used0 := (avalues qmap).filter (fun q => tgt_ids.contains q)
    let st ← (src_ids.enum).foldlM
      (fun st p => depStep src.display_name srcQs tgt_ids tgtFull tgtLoose st p.1 p.2)
      ⟨qmap, used0⟩
    return st.qmap

/-- `build_question_map` (`dependency_question_id_updater.py:63-159`). -/
def build_question_map (source_forms target_forms : List Form)
    (srcQs tgtQs : QBank) : Except Err (List (Int × Int)) :=
  source_forms.foldlM (depProcessForm srcQs tgtQs (indexFormsByName target_forms)) []

end DepSync

/-! ### `extend_question_map_with_signatures`

The function is textually identical in the two modules
(`form_and_question_id_updater.py:158-194`,
`dependency_question_id_updater.py:161-197`); the only difference is which
module's `sanitize_question` is in scope, so the embedding is
parameterized by it and each namespace instantiates its own copy. -/

/-- The grouping loops of the sweep
(`source_signature_map` / `target_signature_map`, lines 164-176 of the
form module): a `defaultdict(list)` keyed by signature, appending IDs in
bank iteration order and skipping entries for which `skip` holds. -/
def buildSigBuckets (sanitize : Question → String) (skip : Int → Bool)
    (qs : QBank) : List (String × List Int) :=
  qs.foldl
    (fun acc p =>
      if skip p.1 then acc
      else
        let sig := sanitize p.2
        aset acc sig (((alookup acc sig).getD []) ++ [p.1])) []

/-- State threaded through the signature-bucket loop of the sweep. -/
structure ExtendState where
  qmap : List (Int × Int)
  used : List Int
  unresolved : List Int

/-- The per-bucket body of the sweep (lines 176-192 of the form module):
no available target leaves the bucket unresolved; equal counts pair the
bucket sorted-to-sorted; a single source takes the first available
target; anything else is unresolved. -/
def extendBucketStep (tgtBuckets : List (String × List Int))
    (st : ExtendState) (b : String × List Int) : ExtendState :=
  let src_ids := b.2
  let target_ids := (alookup tgtBuckets b.1).getD []
  let available_targets := target_ids.filter (fun t => !st.used.contains t)
  match available_targets with
  | [] => { st with unresolved := st.unresolved ++ src_ids }
  | t0 :: _ =>
    if src_ids.length = available_targets.length then
      ((sortInts src_ids).zip (sortInts available_targets)).foldl
        (fun s p => { s with qmap := aset s.qmap p.1 p.2, used := saddElem s.used p.2 }) st
    else
      match src_ids with
      | [s0] => { st with qmap := aset st.qmap s0 t0, used := saddElem st.used t0 }
      | _ => { st with unresolved := st.unresolved ++ src_ids }

/-- `extend_question_map_with_signatures`, parameterized by the module's
`sanitize_question`.  Returns the extended map together with the
unresolved source IDs (the Python version mutates `question_map` in place
and returns only the latter). -/
def extendSigSweep (sanitize : Question → String) (question_map : List (Int × Int))
    (source_questions target_questions : QBank) : List (Int × Int) × List Int :=
  let used0 := avalues question_map
  let srcBuckets := buildSigBuckets sanitize
    (fun i => (alookup question_map i).isSome) source_questions
  let tgtBuckets := buildSigBuckets sanitize
    (fun i => used0.contains i) target_questions
  let st := srcBuckets.foldl (extendBucketStep tgtBuckets)
    ⟨question_map, used0, []⟩
  (st.qmap, st.unresolved)

namespace FormSync

/-- `extend_question_map_with_signatures` (`form_and_question_id_updater.py:158-194`). -/
def extend_question_map_with_signatures :
    List (Int × Int) → QBank → QBank → List (Int × Int) × List Int :=
  extendSigSweep sanitize_question

end FormSync

namespace DepSync

/-- `extend_question_map_with_signatures` (`dependency_question_id_updater.py:161-197`). -/
def extend_question_map_with_signatures :
    List (Int × Int) → QBank → QBank → List (Int × Int) × List Int :=
  extendSigSweep sanitize_question

end DepSync

/-! ### Tree rewriting — dependency updater

`replace_question_ids` and its helpers
(`dependency_question_id_updater.py:200-315`).  The `stats` counter and
the `missing_ids` set that the Python code mutates in place are threaded
as explicit state. -/

/-- The mutable reporting state of one rewrite run: the `(old, new)`
replacement counter and the set of known-but-unmapped IDs. -/
structure RewState where
  stats : List ((Int × Int) × Nat)
  missing : List Int

namespace DepSync

/-- `replace_dict_key` (`dependency_question_id_updater.py:200-215`). -/
def replace_dict_key (mapping : List (Int × Int)) (known : List Int)
    (key : String) (st : RewState) : String × RewState :=
  if pyIsDigitStr key then
    let old_id := pyIntOfDigits key
    match alookup mapping old_id with
    | some new_id =>
      (pyStrOfInt new_id, { st with stats := counterInc st.stats (old_id, new_id) })
    | none =>
      if old_id ∈ known then (key, { st with missing := saddElem st.missing old_id })
      else (key, st)
  else (key, st)

/-- `replace_numeric_int` (`dependency_question_id_updater.py:218-231`). -/
def replace_numeric_int (mapping : List (Int × Int)) (known : List Int)
    (value : Int) (st : RewState) : Int × RewState :=
  match alookup mapping value with
  | some new_value =>
    (new_value, { st with stats := counterInc st.stats (value, new_value) })
  | none =>
    if value ∈ known then (value, { st with missing := saddElem st.missing value })
    else (value, st)

/-- One attempted match of `EMBEDDED_TEMPLATE_PATTERN`
(`dependency_question_id_updater.py:28`), the regex
with groups `(\{\{[^{}<]*<)`, `(\d+)`, `(>[^{}]*\}\})`.  Each quantified
class is immediately followed by a literal excluded from the class, so
backtracking never helps and the match at a position is unique: returns
`(group1, group2, group3, rest-after-match)` or `none`. -/
def tryTemplateMatch (cs : List Char) : Option (String × String × String × List Char) :=
  match cs with
  | '\x7b' :: '\x7b' :: rest =>
    let run1 := rest.takeWhile (fun c => c ≠ '\x7b' && c ≠ '\x7d' && c ≠ '<')
    match rest.drop run1.length with
    | '<' :: rest2 =>
      let digits := rest2.takeWhile Char.isDigit
      if digits.isEmpty then none
      else
        match rest2.drop digits.length with
        | '>' :: rest3 =>
          let run2 := rest3.takeWhile (fun c => c ≠ '\x7b' && c ≠ '\x7d')
          match rest3.drop run2.length with
          | '\x7d' :: '\x7d' :: rest4 =>
            some (String.mk ('\x7b' :: '\x7b' :: (run1 ++ ['<'])),
                  String.mk digits,
                  String.mk ('>' :: (run2 ++ ['\x7d', '\x7d'])),
                  rest4)
          | _ => none
        | _ => none
    | _ => none
  | _ => none

/-- The scanning loop of `EMBEDDED_TEMPLATE_PATTERN.sub(repl, value)` with
the `repl` of `replace_embedded_template_ids`
(`dependency_question_id_updater.py:234-252`).  One unit of fuel is spent
per consumed character, so `fuel = length + 1` always completes the scan. -/
def templateSubGo (mapping : List (Int × Int)) (known : List Int) :
    Nat → List Char → RewState → List Char × RewState
  | 0, cs, st => (cs, st)
  | _ + 1, [], st => ([], st)
  | fuel + 1, c :: rest, st =>
    match tryTemplateMatch (c :: rest) with
    | some (pre, digits, suf, rest4) =>
      let old_id := pyIntOfDigits digits
      (match alookup mapping old_id with
       | some new_id =>
         let st := { st with stats := counterInc st.stats (old_id, new_id) }
         let out := templateSubGo mapping known fuel rest4 st
         ((pre ++ pyStrOfInt new_id ++ suf).data ++ out.1, out.2)
       | none =>
         let st :=
           if old_id ∈ known then { st with missing := saddElem st.missing old_id } else st
         let out := templateSubGo mapping known fuel rest4 st
         ((pre ++ digits ++ suf).data ++ out.1, out.2))
    | none =>
      let out := templateSubGo mapping known fuel rest st
      (c :: out.1, out.2)

/-- `replace_embedded_template_ids` (`dependency_question_id_updater.py:234-252`). -/
def replace_embedded_template_ids (mapping : List (Int × Int)) (known : List Int)
    (value : String) (st : RewState) : String × RewState :=
  let out := templateSubGo mapping known (value.data.length + 1) value.data st
  (String.mk out.1, out.2)

/-- Keep the last two original characters seen, for the two-character
lookbehind of `NUMERIC_PATTERN`. -/
def shift2 (prev2 : List Char) (c : Char) : List Char :=
  match prev2 with
  | [] => [c]
  | [a] => [a, c]
  | [_, b] => [b, c]
  | _ => [c]

/-- Last two characters of a list (the whole list when shorter). -/
def lastTwo (l : List Char) : List Char := l.drop (l.length - 2)

/-- The scanning loop of `NUMERIC_PATTERN.sub(repl, value)`.

`NUMERIC_PATTERN = re.compile(r"(?<!\\d)(\\d+)(?!\\d)")`
(`dependency_question_id_updater.py:27`) — inside the RAW string each
`\\` is a regex escaped backslash, so the compiled pattern is: a literal
backslash followed by one or more letters `d` (the capture group), with a
two-character negative lookbehind and lookahead for the literal text
`\d`.  It does NOT match runs of decimal digits.  The greedy `d+` only
backtracks one step when the run is followed by the literal `\d`
(otherwise the character after the run cannot be a backslash).  `repl`
receives `match.group(1)` — which always starts with a backslash, so the
`int()` inside the real `repl` raises `ValueError` on every match. -/
def buggyNumericSubGo (repl : String → RewState → Except Err (String × RewState)) :
    Nat → List Char → List Char → RewState → Except Err (List Char × RewState)
  | 0, _, cs, st => .ok (cs, st)
  | _ + 1, _, [], st => .ok ([], st)
  | fuel + 1, prev2, c :: rest, st =>
    if c = '\\' && rest.head? = some 'd' && !(prev2 = ['\\', 'd'] : Bool) then
      let ds := rest.takeWhile (fun x => x = 'd')
      let after := rest.drop ds.length
      let k :=
        if after.head? = some '\\' && (after.drop 1).head? = some 'd' then ds.length - 1
        else ds.length
      if k = 0 then do
        let out ← buggyNumericSubGo repl fuel (shift2 prev2 c) rest st
        return (c :: out.1, out.2)
      else do
        let group := String.mk ('\\' :: ds.take k)
        let (rep, st) ← repl group st
        let out ← buggyNumericSubGo repl fuel (lastTwo ('\\' :: ds.take k)) (rest.drop k) st
        return (rep.data ++ out.1, out.2)
    else do
      let out ← buggyNumericSubGo repl fuel (shift2 prev2 c) rest st
      return (c :: out.1, out.2)

/-- The `repl` closure inside `replace_string_value`
(`dependency_question_id_updater.py:276-284`): `int(match.group(1))`,
then map / count / record-missing. -/
def numericRepl (mapping : List (Int × Int)) (known : List Int)
    (group : String) (st : RewState) : Except Err (String × RewState) :=
  match pyIntStrict group with
  | .error s => .error (.valueError s)
  | .ok old_id =>
    match alookup mapping old_id with
    | some new_id =>
      .ok (pyStrOfInt new_id, { st with stats := counterInc st.stats (old_id, new_id) })
    | none =>
      if old_id ∈ known then .ok (group, { st with missing := saddElem st.missing old_id })
      else .ok (group, st)

/-- `replace_string_value` (`dependency_question_id_updater.py:255-286`). -/
def replace_string_value (mapping : List (Int × Int)) (known : List Int)
    (value : String) (st : RewState) : Except Err (String × RewState) :=
  if pyIsDigitStr value then
    let old_id := pyIntOfDigits value
    match alookup mapping old_id with
    | some new_id =>
      .ok (pyStrOfInt new_id, { st with stats := counterInc st.stats (old_id, new_id) })
    | none =>
      if old_id ∈ known then .ok (value, { st with missing := saddElem st.missing old_id })
      else .ok (value, st)
  else
    let out := replace_embedded_template_ids mapping known value st
    -- `if updated_value != value: value = updated_value` is a plain rebinding
    let updated_value := out.1
    do
      let res ← buggyNumericSubGo (numericRepl mapping known)
        (updated_value.data.length + 1) [] updated_value.data out.2
      return (String.mk res.1, res.2)

mutual
/-- `replace_question_ids` (`dependency_question_id_updater.py:289-315`):
booleans first (returned untouched), then native ints, strings, lists and
dicts; dict values whose rewritten keys collide with a differently-valued
existing key raise the conflict error. -/
def replace_question_ids (mapping : List (Int × Int)) (known : List Int) :
    JValue → RewState → Except Err (JValue × RewState)
  | .jbool b, st => .ok (.jbool b, st)
  | .jint n, st =>
    let out := replace_numeric_int mapping known n st
    .ok (.jint out.1, out.2)
  | .jstr s, st => do
    let out ← replace_string_value mapping known s st
    return (.jstr out.1, out.2)
  | .jarr xs, st => do
    let out ← replaceQuestionIdsList mapping known xs st
    return (.jarr out.1, out.2)
  | .jobj fs, st => do
    let out ← replaceQuestionIdsObj mapping known fs [] st
    return (.jobj out.1, out.2)
  | .jnull, st => .ok (.jnull, st)

def replaceQuestionIdsList (mapping : List (Int × Int)) (known : List Int) :
    List JValue → RewState → Except Err (List JValue × RewState)
  | [], st => .ok ([], st)
  | x :: xs, st => do
    let (y, st) ← replace_question_ids mapping known x st
    let out ← replaceQuestionIdsList mapping known xs st
    return (y :: out.1, out.2)

def replaceQuestionIdsObj (mapping : List (Int × Int)) (known : List Int) :
    List (String × JValue) → List (String × JValue) → RewState →
    Except Err (List (String × JValue) × RewState)
  | [], acc, st => .ok (acc, st)
  | (k, v) :: rest, acc, st => do
    let key := replace_dict_key mapping known k st
    let (v2, st) ← replace_question_ids mapping known v key.2
    match alookup acc key.1 with
    | some w =>
      if !pyEq w v2 then .error (.conflictKey key.1)
      else replaceQuestionIdsObj mapping known rest (aset acc key.1 v2) st
    | none => replaceQuestionIdsObj mapping known rest (acc ++ [(key.1, v2)]) st
end

end DepSync

/-! ### Tree rewriting — form/workflow updater (`replace_ids`,
`form_and_question_id_updater.py:197-243`) -/

namespace FormSync

/-- `update_numeric` (`form_and_question_id_updater.py:208-213`): question
map, question map again (chained updates), then form map. -/
def update_numeric (form_map question_map : List (Int × Int)) (value : Int) : Int :=
  let new_value := (alookup question_map value).getD value
  let new_value := (alookup question_map new_value).getD new_value
  (alookup form_map new_value).getD new_value

/-- The scanning loop of `re.subn(r"(?<!\d)(\d+)(?!\d)", repl, obj)`
(`form_and_question_id_updater.py:238`): this pattern (single
backslashes) matches every maximal run of decimal digits — the
lookbehind/lookahead forbid adjacent digits, and the greedy `\d+` from the
first digit of a run takes the whole run.  Returns the rewritten
characters, the threaded state and the match count.  One unit of fuel per
consumed character. -/
def digitRunSubGo {σ : Type} (repl : String → σ → String × σ) :
    Nat → List Char → σ → List Char × σ × Nat
  | 0, cs, st => (cs, st, 0)
  | _ + 1, [], st => ([], st, 0)
  | fuel + 1, c :: rest, st =>
    if c.isDigit then
      let run := c :: rest.takeWhile Char.isDigit
      let after := rest.drop (rest.takeWhile Char.isDigit).length
      let rep := repl (String.mk run) st
      let out := digitRunSubGo repl fuel after rep.2
      (rep.1.data ++ out.1, out.2.1, out.2.2 + 1)
    else
      let out := digitRunSubGo repl fuel rest st
      (c :: out.1, out.2.1, out.2.2)

/-- The `repl` closure inside `replace_ids`
(`form_and_question_id_updater.py:230-236`). -/
def replRepl (form_map question_map : List (Int × Int))
    (group : String) (stats : List ((Int × Int) × Nat)) :
    String × List ((Int × Int) × Nat) :=
  let numeric := pyIntOfDigits group
  let new_value := update_numeric form_map question_map numeric
  if new_value ≠ numeric then (pyStrOfInt new_value, counterInc stats (numeric, new_value))
  else (group, stats)

mutual
/-- `replace_ids` (`form_and_question_id_updater.py:197-243`).  Dicts have
only their values rewritten (keys untouched), native ints and digit
strings go through `update_numeric`, other strings through the digit-run
substitution.  Python booleans pass `isinstance(obj, int)` here, so a
boolean is looked up as `0`/`1` and replaced by the mapped *int* when the
lookup changes its numeric value. -/
def replace_ids (form_map question_map : List (Int × Int)) :
    JValue → List ((Int × Int) × Nat) → JValue × List ((Int × Int) × Nat)
  | .jobj fs, stats =>
    let out := replaceIdsFields form_map question_map fs stats
    (.jobj out.1, out.2)
  | .jarr xs, stats =>
    let out := replaceIdsList form_map question_map xs stats
    (.jarr out.1, out.2)
  | .jbool b, stats =>
    let obj : Int := if b then 1 else 0
    let new_value := update_numeric form_map question_map obj
    if new_value ≠ obj then (.jint new_value, counterInc stats (obj, new_value))
    else (.jbool b, stats)
  | .jint n, stats =>
    let new_value := update_numeric form_map question_map n
    if new_value ≠ n then (.jint new_value, counterInc stats (n, new_value))
    else (.jint n, stats)
  | .jstr s, stats =>
    if pyIsDigitStr s then
      let numeric := pyIntOfDigits s
      let new_value := update_numeric form_map question_map numeric
      if new_value ≠ numeric then (.jstr (pyStrOfInt new_value), counterInc stats (numeric, new_value))
      else (.jstr s, stats)
    else
      let out := digitRunSubGo (replRepl form_map question_map) (s.data.length + 1) s.data stats
      if out.2.2 > 0 then (.jstr (String.mk out.1), out.2.1)
      else (.jstr s, out.2.1)
  | .jnull, stats => (.jnull, stats)

def replaceIdsList (form_map question_map : List (Int × Int)) :
    List JValue → List ((Int × Int) × Nat) → List JValue × List ((Int × Int) × Nat)
  | [], stats => ([], stats)
  | x :: xs, stats =>
    let hd := replace_ids form_map question_map x stats
    let out := replaceIdsList form_map question_map xs hd.2
    (hd.1 :: out.1, out.2)

def replaceIdsFields (form_map question_map : List (Int × Int)) :
    List (String × JValue) → List ((Int × Int) × Nat) →
    List (String × JValue) × List ((Int × Int) × Nat)
  | [], stats => ([], stats)
  | (k, v) :: fs, stats =>
    let hd := replace_ids form_map question_map v stats
    let out := replaceIdsFields form_map question_map fs hd.2
    ((k, hd.1) :: out.1, out.2)
end

end FormSync

/-! ### Textual patching and the consistency check
(`sync_ids`, `form_and_question_id_updater.py:246-295`)

The map-building half of `sync_ids` is the composition of the functions
already embedded above; the write phase (lines 273-295) is embedded here
as a function of the original document text, the two maps and the decoded
workflow. -/

/-- `sorted(stats.items())`: ascending by the `(old, new)` key (keys are
unique in a `Counter`, so the count never participates). -/
def sortStats (stats : List ((Int × Int) × Nat)) : List ((Int × Int) × Nat) :=
  List.insertionSort
    (fun a b => a.1.1 < b.1.1 ∨ (a.1.1 = b.1.1 ∧ a.1.2 ≤ b.1.2)) stats

/-- Does the character list start with the two-character literal `\d`
(the text the lookarounds of the patched-in patterns test for)? -/
def startsBackslashD (cs : List Char) : Bool :=
  cs.head? = some '\\' && (cs.drop 1).head? = some 'd'

/-- The scanning loop of `re.compile(rf"(?<!\\d){old}(?!\\d)").subn(str(new), text)`
(`form_and_question_id_updater.py:280-281`).  As in `NUMERIC_PATTERN`,
the doubled backslashes inside the raw f-string make the lookarounds test
for the literal two-character text `\d`, not for digits — so the decimal
rendering of `old` is replaced at EVERY occurrence (even inside a longer
number), except when literally surrounded by `\d`. -/
def subnLitBuggyGo (oldLit newLit : List Char) :
    Nat → List Char → List Char → List Char × Nat
  | 0, _, cs => (cs, 0)
  | _ + 1, _, [] => ([], 0)
  | fuel + 1, prev2, c :: rest =>
    if oldLit.isPrefixOf (c :: rest) && !(prev2 = ['\\', 'd'] : Bool)
        && !startsBackslashD ((c :: rest).drop oldLit.length) then
      let out := subnLitBuggyGo oldLit newLit fuel (DepSync.lastTwo oldLit)
        ((c :: rest).drop oldLit.length)
      (newLit ++ out.1, out.2 + 1)
    else
      let out := subnLitBuggyGo oldLit newLit fuel (DepSync.shift2 prev2 c) rest
      (c :: out.1, out.2)

namespace FormSync

/-- The per-`(old, new)` textual replacement loop of `sync_ids`
(`form_and_question_id_updater.py:277-285`): apply each substitution to
the running text and require the substitution count to equal the
structural replacement count, else raise. -/
def patch_text (original_text : String) (stats : List ((Int × Int) × Nat)) :
    Except Err String :=
  (sortStats stats).foldlM
    (fun txt entry =>
      let old := entry.1.1
      let new := entry.1.2
      let count := entry.2
      let out := subnLitBuggyGo (pyStrOfInt old).data (pyStrOfInt new).data
        (txt.data.length + 1) [] txt.data
      if out.2 ≠ count then Except.error (.countMismatch old count out.2)
      else Except.ok (String.mk out.1))
    original_text

end FormSync

/-! ### `json.loads` on the modelled JSON fragment

A recursive-descent parser used by the consistency check of `sync_ids`.
Restrictions of the model (documented, not exercised by the data model of
§3): floating-point literals and lone surrogate escapes are rejected. -/

/-- JSON whitespace accepted between tokens by `json.loads`. -/
def jsonWs (c : Char) : Bool := c = ' ' || c = '\t' || c = '\n' || c = '\r'

/-- Value of one hexadecimal digit, or `none`. -/
def hexVal (c : Char) : Option Nat :=
  if '0' ≤ c && c ≤ '9' then some (c.toNat - 48)
  else if 'a' ≤ c && c ≤ 'f' then some (c.toNat - 87)
  else if 'A' ≤ c && c ≤ 'F' then some (c.toNat - 55)
  else none

/-- Four hexadecimal digits of a `\uXXXX` escape. -/
def readHex4 : List Char → Option (Nat × List Char)
  | a :: b :: c :: d :: rest =>
    match hexVal a, hexVal b, hexVal c, hexVal d with
    | some x, some y, some z, some w => some (((x * 16 + y) * 16 + z) * 16 + w, rest)
    | _, _, _, _ => none
  | _ => none

/-- String-literal body parser (after the opening quote). -/
def parseStringBody : Nat → List Char → Except String (List Char × List Char)
  | 0, _ => .error "string fuel"
  | _ + 1, [] => .error "unterminated string"
  | fuel + 1, c :: rest =>
    if c = '"' then .ok ([], rest)
    else if c = '\\' then
      match rest with
      | [] => .error "bad escape"
      | e :: rest2 =>
        let decoded : Except String (Char × List Char) :=
          if e = '"' then .ok ('"', rest2)
          else if e = '\\' then .ok ('\\', rest2)
          else if e = '/' then .ok ('/', rest2)
          else if e = 'b' then .ok ('\x08', rest2)
          else if e = 'f' then .ok ('\x0c', rest2)
          else if e = 'n' then .ok ('\n', rest2)
          else if e = 'r' then .ok ('\r', rest2)
          else if e = 't' then .ok ('\t', rest2)
          else if e = 'u' then
            match readHex4 rest2 with
            | some (n, rest3) =>
              if h : n.isValidChar then .ok (Char.ofNatAux n h, rest3)
              else .error "surrogate escape (outside the modelled fragment)"
            | none => .error "bad unicode escape"
          else .error "bad escape"
        match decoded with
        | .ok (ch, rest3) =>
          match parseStringBody fuel rest3 with
          | .ok (cs, rest4) => .ok (ch :: cs, rest4)
          | .error m => .error m
        | .error m => .error m
    else if c.toNat < 32 then .error "control character in string"
    else
      match parseStringBody fuel rest with
      | .ok (cs, rest2) => .ok (c :: cs, rest2)
      | .error m => .error m

/-- Integer-literal parser (strict JSON grammar; a fraction or exponent is
a float, outside the modelled fragment). -/
def parseIntLit (cs : List Char) : Except String (Int × List Char) :=
  let sign : Bool := cs.head? = some '-'
  let cs2 := if sign then cs.drop 1 else cs
  let digits := cs2.takeWhile Char.isDigit
  let rest := cs2.drop digits.length
  if digits.isEmpty then .error "invalid number"
  else if digits.length > 1 && digits.head? = some '0' then .error "leading zero"
  else if rest.head? = some '.' || rest.head? = some 'e' || rest.head? = some 'E' then
    .error "float literal (outside the modelled fragment)"
  else
    let n : Int := pyIntOfDigits (String.mk digits)
    .ok (if sign then -n else n, rest)

mutual
/-- One JSON value (leading whitespace allowed). -/
def parseValueJ : Nat → List Char → Except String (JValue × List Char)
  | 0, _ => .error "fuel"
  | fuel + 1, cs =>
    match cs.dropWhile jsonWs with
    | [] => .error "empty"
    | c :: rest =>
      if c = 'n' then
        match rest with
        | 'u' :: 'l' :: 'l' :: rest2 => .ok (.jnull, rest2)
        | _ => .error "bad literal"
      else if c = 't' then
        match rest with
        | 'r' :: 'u' :: 'e' :: rest2 => .ok (.jbool true, rest2)
        | _ => .error "bad literal"
      else if c = 'f' then
        match rest with
        | 'a' :: 'l' :: 's' :: 'e' :: rest2 => .ok (.jbool false, rest2)
        | _ => .error "bad literal"
      else if c = '"' then
        match parseStringBody (rest.length + 1) rest with
        | .ok (body, rest2) => .ok (.jstr (String.mk body), rest2)
        | .error m => .error m
      else if c = '[' then
        match rest.dropWhile jsonWs with
        | ']' :: rest2 => .ok (.jarr [], rest2)
        | _ =>
          match parseArrayItems fuel rest with
          | .ok (xs, rest2) => .ok (.jarr xs, rest2)
          | .error m => .error m
      else if c = '\x7b' then
        match rest.dropWhile jsonWs with
        | '\x7d' :: rest2 => .ok (.jobj [], rest2)
        | _ =>
          match parseObjItems fuel rest [] with
          | .ok (fs, rest2) => .ok (.jobj fs, rest2)
          | .error m => .error m
      else
        match parseIntLit (c :: rest) with
        | .ok (n, rest2) => .ok (.jint n, rest2)
        | .error m => .error m

/-- Comma-separated array items up to the closing bracket. -/
def parseArrayItems : Nat → List Char → Except String (List JValue × List Char)
  | 0, _ => .error "fuel"
  | fuel + 1, cs =>
    match parseValueJ fuel cs with
    | .error m => .error m
    | .ok (v, rest) =>
      match rest.dropWhile jsonWs with
      | ',' :: rest2 =>
        match parseArrayItems fuel rest2 with
        | .ok (vs, rest3) => .ok (v :: vs, rest3)
        | .error m => .error m
      | ']' :: rest2 => .ok ([v], rest2)
      | _ => .error "expected , or ]"

/-- Comma-separated object members up to the closing brace; duplicate keys
behave like repeated dict assignment (last write wins), as in `json.loads`. -/
def parseObjItems : Nat → List Char → List (String × JValue) →
    Except String (List (String × JValue) × List Char)
  | 0, _, _ => .error "fuel"
  | fuel + 1, cs, acc =>
    match cs.dropWhile jsonWs with
    | '"' :: rest =>
      match parseStringBody (rest.length + 1) rest with
      | .error m => .error m
      | .ok (key, rest2) =>
        match rest2.dropWhile jsonWs with
        | ':' :: rest3 =>
          match parseValueJ fuel rest3 with
          | .error m => .error m
          | .ok (v, rest4) =>
            let acc2 := aset acc (String.mk key) v
            match rest4.dropWhile jsonWs with
            | ',' :: rest5 => parseObjItems fuel rest5 acc2
            | '\x7d' :: rest5 => .ok (acc2, rest5)
            | _ => .error "expected , or brace"
        | _ => .error "expected :"
    | _ => .error "expected key"
end

/-- `json.loads` on the modelled fragment: parse one value and require
only whitespace after it. -/
def jsonLoads (s : String) : Except String JValue :=
  match parseValueJ (s.data.length + 1) s.data with
  | .error m => .error m
  | .ok (v, rest) =>
    if (rest.dropWhile jsonWs).isEmpty then .ok v else .error "trailing data"

/-! ### `json.dumps(value, indent=2)` (default `ensure_ascii=True`),
used by the re-serializing branch of `sync_ids` (line 293). -/

/-- One character of a JSON string literal with `ensure_ascii=True`:
non-ASCII characters become `\uXXXX` escapes (surrogate pairs above the
basic plane). -/
def jsonEscapeCharAscii (c : Char) : String :=
  if c = '"' then "\\\""
  else if c = '\\' then "\\\\"
  else if c = '\x08' then "\\b"
  else if c = '\t' then "\\t"
  else if c = '\n' then "\\n"
  else if c = '\x0c' then "\\f"
  else if c = '\r' then "\\r"
  else if c.toNat < 32 then "\\u" ++ hex4 c.toNat
  else if c.toNat < 127 then String.singleton c
  else if c.toNat < 65536 then "\\u" ++ hex4 c.toNat
  else
    let n := c.toNat - 65536
    "\\u" ++ hex4 (55296 + n / 1024) ++ "\\u" ++ hex4 (56320 + n % 1024)

/-- JSON string literal with `ensure_ascii=True`. -/
def jsonEncodeStringAscii (s : String) : String :=
  "\"" ++ String.join (s.data.map jsonEscapeCharAscii) ++ "\""

/-- `"\n" + "  " * level`. -/
def indentNl (level : Nat) : String :=
  "\n" ++ String.mk (List.replicate (2 * level) ' ')

mutual
/-- `json.dumps(v, indent=2)`: two-space indentation, `", "`-free item
separator (a comma then a newline), `": "` key separator, insertion key
order, ASCII escapes. -/
def dumpsIndent : Nat → JValue → String
  | _, .jnull => "null"
  | _, .jbool true => "true"
  | _, .jbool false => "false"
  | _, .jint n => pyStrOfInt n
  | _, .jstr s => jsonEncodeStringAscii s
  | _, .jarr [] => "[]"
  | level, .jarr (x :: xs) =>
    "[" ++ indentNl (level + 1) ++
      String.intercalate ("," ++ indentNl (level + 1)) (dumpsIndentList (level + 1) (x :: xs)) ++
      indentNl level ++ "]"
  | _, .jobj [] => "\x7b\x7d"
  | level, .jobj (f :: fs) =>
    "\x7b" ++ indentNl (level + 1) ++
      String.intercalate ("," ++ indentNl (level + 1)) (dumpsIndentFields (level + 1) (f :: fs)) ++
      indentNl level ++ "\x7d"

def dumpsIndentList : Nat → List JValue → List String
  | _, [] => []
  | level, v :: vs => dumpsIndent level v :: dumpsIndentList level vs

def dumpsIndentFields : Nat → List (String × JValue) → List String
  | _, [] => []
  | level, (k, v) :: fs =>
    (jsonEncodeStringAscii k ++ ": " ++ dumpsIndent level v) :: dumpsIndentFields level fs
end

namespace FormSync

/-- The write phase of `sync_ids` (`form_and_question_id_updater.py:273-295`),
as a function of the raw document text, the two built maps and the
decoded workflow.  Output: `some (true, text)` when the textual-patch
branch (lines 276-291) writes `text`; `some (false, text)` when the
re-serializing branch (line 293) writes `text`; `none` when `write` is
false and nothing is written. -/
def sync_ids_write_phase (write : Bool) (original_text : String)
    (form_map question_map : List (Int × Int)) (workflow : JValue) :
    Except Err (Option (Bool × String)) :=
  let out := replace_ids form_map question_map workflow []
  let updated_workflow := out.1
  let stats := out.2
  if write && !stats.isEmpty then
    match patch_text original_text stats with
    | .error e => .error e
    | .ok updated_text =>
      match jsonLoads updated_text with
      | .error m => .error (.jsonDecode m)
      | .ok parsed =>
        if !pyEq parsed updated_workflow then .error .consistency
        else .ok (some (true, updated_text))
  else if write then
    .ok (some (false, dumpsIndent 0 updated_workflow))
  else
    .ok none

end FormSync

/-! ### The missing-mapping gate of the dependency updater
(`main`, `dependency_question_id_updater.py:359-378`): rewrite the target
form library and the target question bank, union the two missing-ID sets,
and fail before writing anything when the union is non-empty. -/

namespace DepSync

/-- The rewrite-and-check slice of `main`
(`dependency_question_id_updater.py:359-378`): both documents are
rewritten with fresh stats/missing state, then the run aborts with the
missing-mapping error when any known source ID had no target mapping. -/
def rewrite_and_check (question_map : List (Int × Int)) (known_ids : List Int)
    (target_forms target_questions : JValue) :
    Except Err (JValue × JValue × RewState × RewState) := do
  let (updated_forms, form_st) ←
    replace_question_ids question_map known_ids target_forms ⟨[], []⟩
  let (updated_questions, question_st) ←
    replace_question_ids question_map known_ids target_questions ⟨[], []⟩
  let missing_ids := question_st.missing.foldl saddElem form_st.missing
  if !missing_ids.isEmpty then
    throw (.missingMapping (sortInts missing_ids))
  return (updated_forms, updated_questions, form_st, question_st)

end DepSync

/-- The positional pairs `zip(source_ids, target_ids)` that the form
updater's `build_question_map` attempts to insert for one source form:
empty when no target form shares the `display_name`, otherwise the
pairwise zip of the converted question-ID lists
(`form_and_question_id_updater.py:114-122`). -/
def FormSync.formPairsOfForm (tgtByName : List (String × Form)) (src : Form) :
    Except Err (List (Int × Int)) :=
  match alookup tgtByName src.display_name with
  | none => .ok []
  | some tgt => do
    let s ← src.question_ids.mapM FormSync.to_int
    let t ← tgt.question_ids.mapM FormSync.to_int
    return s.zip t

/-- The payload serialized by the form updater's `sanitize_question`: the
record without its `id` field, with the label normalized in place when
present (`form_and_question_id_updater.py:72-74`). -/
def FormSync.sanitizedPayload (q : Question) : Question :=
  let payload := q.filter (fun kv => kv.1 ≠ "id")
  match alookup payload "label" with
  | some l => aset payload "label" (FormSync.normalize_label l)
  | none => payload

/-! ## Theorems

Basic lemmas about the Python-dict model and the canonical serializer,
followed by the settled claims. -/

theorem alookup_aset_self {α β : Type} [DecidableEq α] (l : List (α × β)) (a : α) (b : β) :
    alookup (aset l a b) a = some b := by
  induction l with
  | nil => simp [aset, alookup]
  | cons kv l ih =>
    obtain ⟨k, v⟩ := kv
    by_cases h : k = a
    · simp [aset, alookup, h]
    · simp [aset, alookup, h, Ne.symm h, ih]

theorem alookup_aset_ne {α β : Type} [DecidableEq α] (l : List (α × β)) (a c : α) (b : β)
    (hne : c ≠ a) : alookup (aset l a b) c = alookup l c := by
  induction l with
  | nil => simp [aset, alookup, hne]
  | cons kv l ih =>
    obtain ⟨k, v⟩ := kv
    by_cases h : k = a
    · subst h
      simp [aset, alookup, hne]
    · by_cases h2 : c = k <;> simp [aset, alookup, h, h2, ih]

theorem canonFields_eq_map (fs : List (String × JValue)) :
    canonFields fs = fs.map (fun kv => (kv.1, canonicalize kv.2)) := by
  induction fs with
  | nil => rfl
  | cons kv fs ih => simp [canonFields, ih]

/-! ## Claims -/

/-- **C10** — the dependency updater's tree rewrite returns every boolean
scalar unchanged for every mapping, reporting state and known-ID set —
including maps that contain the keys `0` or `1` — and its `to_int`
rejects booleans, so `True` is never treated as the ID `1` in map
construction or rewriting. -/
theorem c10_booleans_inert :
    ∀ (mapping : List (Int × Int)) (known : List Int) (b : Bool) (st : RewState),
      DepSync.replace_question_ids mapping known (JValue.jbool b) st = .ok (JValue.jbool b, st)
      ∧ DepSync.to_int (JValue.jbool b) = .error (.toIntErr (JValue.jbool b)) := by
  intro mapping known b st
  exact ⟨rfl, rfl⟩

/-- **C2** — evaluation at the failing input: with the map `{42: 99}`, the
dependency updater's `replace_string_value` leaves the free-text value
`"see 42"` unchanged (its `NUMERIC_PATTERN` matches a literal backslash
followed by letters `d`, never a digit run), while the form updater's
`replace_ids` — whose pattern is written correctly — rewrites the same
text to `"see 99"` as the claim demands. -/
theorem c2_failing_input :
    DepSync.replace_string_value [(42, 99)] [] "see 42" ⟨[], []⟩
      = .ok ("see 42", ⟨[], []⟩)
    ∧ FormSync.replace_ids [] [(42, 99)] (JValue.jstr "see 42") []
      = (JValue.jstr "see 99", [((42, 99), 1)]) :=
  ⟨rfl, rfl⟩

/-- **C7** — evaluation at the failing input: the known source ID `42`
appearing as a bare numeric token inside free text is neither recorded in
the missing set nor does it fail the run (the rewrite-and-check slice of
`main` succeeds with an empty missing set), whereas the same ID at a
native-integer site is recorded and aborts the run by default. -/
theorem c7_failing_input :
    DepSync.rewrite_and_check [] [42] (JValue.jstr "see 42") (JValue.jarr [])
      = .ok (JValue.jstr "see 42", JValue.jarr [], ⟨[], []⟩, ⟨[], []⟩)
    ∧ DepSync.rewrite_and_check [] [42] (JValue.jint 42) (JValue.jarr [])
      = .error (.missingMapping [42]) :=
  ⟨rfl, rfl⟩

/-- **C1 counterexample** — one unmapped source question (ID 1) whose
signature is shared by two available target questions (IDs 11 and 12):
the claim predicts that the sweep leaves ID 1 unmapped and unresolved,
but `extend_question_map_with_signatures` maps it to the first available
target and reports nothing unresolved. -/
theorem c1_counterexample :
    DepSync.sanitize_question [("label", JValue.jstr "A")]
        = DepSync.sanitize_question [("label", JValue.jstr "A")]
    ∧ DepSync.extend_question_map_with_signatures []
        [(1, [("label", JValue.jstr "A")])]
        [(11, [("label", JValue.jstr "A")]), (12, [("label", JValue.jstr "A")])]
      = ([(1, 11)], []) :=
  ⟨rfl, rfl⟩

/-- **C1 (amended)** — in the global signature sweep, a bucket holding
exactly one unmapped source question and two or more available targets
does NOT leave the source unresolved: the `len(src_ids) == 1` branch maps
it to the first available target (in target-bank order) and the
unresolved list stays empty.  Stated for the sweep shared by both modules
(`extendSigSweep`), over any sanitizer and inputs whose source bucket map
is that single bucket. -/
theorem c1_amended_single_source_takes_first
    (sanitize : Question → String) (qmap : List (Int × Int))
    (srcQs tgtQs : QBank) (sig : String) (s t1 t2 : Int) (ts : List Int)
    (hsrc : buildSigBuckets sanitize (fun i => (alookup qmap i).isSome) srcQs
      = [(sig, [s])])
    (havail : ((alookup (buildSigBuckets sanitize
        (fun i => (avalues qmap).contains i) tgtQs) sig).getD []).filter
        (fun t => !(avalues qmap).contains t) = t1 :: t2 :: ts) :
    extendSigSweep sanitize qmap srcQs tgtQs = (aset qmap s t1, []) := by
  unfold extendSigSweep
  rw [hsrc]
  simp only [List.foldl]
  unfold extendBucketStep
  simp only [havail]
  have hlen : ¬ ([s].length = (t1 :: t2 :: ts).length) := by
    simp [List.length]
  simp [hlen]

/-- Witness for the amended C1: a concrete single-source bucket with two
available targets is mapped to the first of them. -/
theorem c1_amended_witness :
    extendSigSweep DepSync.sanitize_question []
      [(1, [("label", JValue.jstr "A")])]
      [(11, [("label", JValue.jstr "A")]), (12, [("label", JValue.jstr "A")])]
      = (aset [] 1 11, []) :=
  c1_amended_single_source_takes_first DepSync.sanitize_question []
    [(1, [("label", JValue.jstr "A")])]
    [(11, [("label", JValue.jstr "A")]), (12, [("label", JValue.jstr "A")])]
    "\x7b\"label\":\"A\"\x7d" 1 11 12 [] (by rfl) (by rfl)

/-! ### Helper lemmas: which error kinds each loop body can raise -/

theorem foldlM_except_error {α σ : Type} (f : σ → α → Except Err σ) :
    ∀ (l : List α) (init : σ) (e : Err), l.foldlM f init = .error e →
      ∃ s a, a ∈ l ∧ f s a = .error e := by
  intro l
  induction l with
  | nil =>
    intro init e h
    simp [List.foldlM, pure, Except.pure] at h
  | cons a l ih =>
    intro init e h
    rw [List.foldlM_cons] at h
    cases hf : f init a with
    | error e2 =>
      rw [hf] at h
      simp only [Bind.bind, Except.bind] at h
      cases h
      exact ⟨init, a, List.mem_cons_self a l, hf⟩
    | ok s =>
      rw [hf] at h
      simp only [Bind.bind, Except.bind] at h
      obtain ⟨s2, a2, hmem, hstep⟩ := ih s e h
      exact ⟨s2, a2, List.mem_cons_of_mem a hmem, hstep⟩

theorem depStep_error_kind (name : String) (srcQs : QBank) (tgt_ids : List Int)
    (tgtFull : List (Int × String)) (tgtLoose : List (Int × LooseSig))
    (st : DepSync.DepState) (i : Nat) (s : Int) (e : Err)
    (h : DepSync.depStep name srcQs tgt_ids tgtFull tgtLoose st i s = .error e) :
    ¬ e.isShapeLen := by
  simp only [DepSync.depStep] at h
  repeat any_goals split at h
  any_goals cases h
  all_goals simp [Err.isShapeLen]

theorem formPairStep_error_kind (name : String) (srcQs tgtQs : QBank)
    (qmap : List (Int × Int)) (s t : Int) (e : Err)
    (h : FormSync.formPairStep name srcQs tgtQs qmap s t = .error e) :
    ¬ e.isShapeLen := by
  unfold FormSync.formPairStep at h
  simp only [bind, Except.bind, pure, Except.pure, throw, throwThe, MonadExceptOf.throw] at h
  repeat any_goals split at h
  any_goals cases h
  all_goals simp [Err.isShapeLen]

/-- **C3 counterexample** — a matched form whose source has 1 question ID
and whose target has 2 satisfies `len(source) <= len(target)`, yet the
form updater's `build_question_map` raises its length error (it requires
the lengths to be exactly equal). -/
theorem c3_counterexample :
    FormSync.build_question_map [⟨"F", [JValue.jint 1]⟩]
      [⟨"F", [JValue.jint 101, JValue.jint 102]⟩] [] []
      = .error (.shapeLen "F" 1 2) :=
  rfl

/-- **C3 (amended)** — the two modules check lengths differently.  The
dependency updater raises its `ShapeError`-kind length failure exactly
when the matched target form has FEWER question IDs than the source (with
`len(src) <= len(tgt)` the per-form processing never raises a
length-kind error, though it may fail for other reasons).  The form
updater instead requires the two lengths to be EQUAL: it raises the
length error whenever they differ — including when the target is longer —
and never raises it when they are equal. -/
theorem c3_amended_length_checks :
    (∀ (srcQs tgtQs : QBank) (tgtByName : List (String × Form))
        (qmap : List (Int × Int)) (src tgt : Form) (src_ids tgt_ids : List Int),
      alookup tgtByName src.display_name = some tgt →
      src.question_ids.mapM DepSync.to_int = .ok src_ids →
      tgt.question_ids.mapM DepSync.to_int = .ok tgt_ids →
      (tgt_ids.length < src_ids.length →
        DepSync.depProcessForm srcQs tgtQs tgtByName qmap src
          = .error (.shapeLen src.display_name src_ids.length tgt_ids.length))
      ∧ (src_ids.length ≤ tgt_ids.length →
        ∀ e, DepSync.depProcessForm srcQs tgtQs tgtByName qmap src = .error e →
          ¬ e.isShapeLen))
    ∧ (∀ (srcQs tgtQs : QBank) (tgtByName : List (String × Form))
        (qmap : List (Int × Int)) (src tgt : Form) (src_ids tgt_ids : List Int),
      alookup tgtByName src.display_name = some tgt →
      src.question_ids.mapM FormSync.to_int = .ok src_ids →
      tgt.question_ids.mapM FormSync.to_int = .ok tgt_ids →
      (src_ids.length ≠ tgt_ids.length →
        FormSync.formProcessForm srcQs tgtQs tgtByName qmap src
          = .error (.shapeLen src.display_name src_ids.length tgt_ids.length))
      ∧ (src_ids.length = tgt_ids.length →
        ∀ e, FormSync.formProcessForm srcQs tgtQs tgtByName qmap src = .error e →
          ¬ e.isShapeLen)) := by
  constructor
  · intro srcQs tgtQs tgtByName qmap src tgt src_ids tgt_ids hname hsrc htgt
    constructor
    · intro hlt
      simp only [DepSync.depProcessForm, hname, hsrc, htgt, Bind.bind, Except.bind,
        throw, throwThe, MonadExceptOf.throw]
      rw [if_pos hlt]
    · intro hle e herr
      simp only [DepSync.depProcessForm, hname, hsrc, htgt, Bind.bind, Except.bind,
        throw, throwThe, MonadExceptOf.throw] at herr
      rw [if_neg (by omega)] at herr
      cases hfold : (src_ids.enum).foldlM
          (fun st p => DepSync.depStep src.display_name srcQs tgt_ids
            (DepSync.depTargetFull tgtQs tgt_ids) (DepSync.depTargetLoose tgtQs tgt_ids)
            st p.1 p.2)
          ⟨qmap, (avalues qmap).filter (fun q => tgt_ids.contains q)⟩ with
      | error e2 =>
        rw [hfold] at herr
        cases herr
        obtain ⟨s2, a2, _, hstep⟩ := foldlM_except_error _ _ _ _ hfold
        exact depStep_error_kind _ _ _ _ _ _ _ _ _ hstep
      | ok st2 =>
        rw [hfold] at herr
        simp [pure, Except.pure] at herr
  · intro srcQs tgtQs tgtByName qmap src tgt src_ids tgt_ids hname hsrc htgt
    constructor
    · intro hne
      simp only [FormSync.formProcessForm, hname, hsrc, htgt, Bind.bind, Except.bind,
        throw, throwThe, MonadExceptOf.throw]
      rw [if_pos hne]
    · intro heq e herr
      simp only [FormSync.formProcessForm, hname, hsrc, htgt, Bind.bind, Except.bind,
        throw, throwThe, MonadExceptOf.throw] at herr
      rw [if_neg (by omega)] at herr
      obtain ⟨s2, a2, _, hstep⟩ := foldlM_except_error _ _ _ _ herr
      exact formPairStep_error_kind _ _ _ _ _ _ _ hstep

/-- Witness for the amended C3: the dependency updater fails with the
length error on a concrete matched form with 2 source IDs and 1 target
ID; the form updater's per-pair mismatch failure on an equal-length form
is not a length-kind error. -/
theorem c3_amended_witness :
    DepSync.depProcessForm [] [] [("F", ⟨"F", [JValue.jint 11]⟩)] []
      ⟨"F", [JValue.jint 1, JValue.jint 2]⟩
      = .error (.shapeLen "F" 2 1)
    ∧ ¬ (Err.mismatch "F" 1 101).isShapeLen := by
  constructor
  · exact (c3_amended_length_checks.1 [] [] [("F", ⟨"F", [JValue.jint 11]⟩)] []
      ⟨"F", [JValue.jint 1, JValue.jint 2]⟩ ⟨"F", [JValue.jint 11]⟩
      [1, 2] [11] (by rfl) (by rfl) (by rfl)).1 (by decide)
  · exact (c3_amended_length_checks.2
      [(1, [("label", JValue.jstr "A")])] [(101, [("label", JValue.jstr "B")])]
      [("F", ⟨"F", [JValue.jint 101]⟩)] []
      ⟨"F", [JValue.jint 1]⟩ ⟨"F", [JValue.jint 101]⟩
      [1] [101] (by rfl) (by rfl) (by rfl)).2 (by rfl)
      (Err.mismatch "F" 1 101) (by rfl)

/-- **C9** — when the source question record at position `i` is absent
from the source bank (so no signature can be computed), the dependency
updater's per-question step accepts the unconsumed positional target at
index `i` and records it without any signature or content check; and the
form updater's equal-length positional step records the pair whenever
only one side's question record exists. -/
theorem c9_unverified_positional_mapping :
    (∀ (name : String) (srcQs : QBank) (tgt_ids : List Int)
        (tgtFull : List (Int × String)) (tgtLoose : List (Int × LooseSig))
        (st : DepSync.DepState) (index : Nat) (src_id t : Int)
        (h : index < tgt_ids.length),
      alookup st.qmap src_id = none →
      alookup srcQs src_id = none →
      tgt_ids.get ⟨index, h⟩ = t →
      t ∉ st.used →
      DepSync.depStep name srcQs tgt_ids tgtFull tgtLoose st index src_id
        = .ok ⟨aset st.qmap src_id t, saddElem st.used t⟩)
    ∧ (∀ (name : String) (srcQs tgtQs : QBank) (qmap : List (Int × Int)) (s t : Int),
      alookup qmap s = none →
      ((alookup srcQs s = none ∧ (alookup tgtQs t).isSome)
        ∨ ((alookup srcQs s).isSome ∧ alookup tgtQs t = none)) →
      FormSync.formPairStep name srcQs tgtQs qmap s t = .ok (aset qmap s t)) := by
  constructor
  · intro name srcQs tgt_ids tgtFull tgtLoose st index src_id t h hq hs hget hused
    have hpos : DepSync.depPositional tgtFull tgtLoose st.used tgt_ids index none none
        = some t := by
      unfold DepSync.depPositional
      rw [dif_pos h]
      rw [List.get_eq_getElem] at hget
      simp [hget, hused]
    simp only [DepSync.depStep, hq, hs, Option.map_none', hpos]
  · intro name srcQs tgtQs qmap s t hq hside
    rcases hside with ⟨h1, h2⟩ | ⟨h1, h2⟩
    · obtain ⟨q, h2⟩ := Option.isSome_iff_exists.mp h2
      simp only [FormSync.formPairStep, hq, h1, h2, Bind.bind, Except.bind,
        pure, Except.pure]
    · obtain ⟨q, h1⟩ := Option.isSome_iff_exists.mp h1
      simp only [FormSync.formPairStep, hq, h1, h2, Bind.bind, Except.bind,
        pure, Except.pure]

/-- Witness for C9: a missing source record with an unconsumed positional
target, and a one-sided form pair, are both recorded unverified. -/
theorem c9_witness :
    DepSync.depStep "F" [] [7] [] [] ⟨[], []⟩ 0 1
      = .ok ⟨aset [] 1 7, saddElem [] 7⟩
    ∧ FormSync.formPairStep "F" [(1, [("label", JValue.jstr "A")])] [] [] 1 101
      = .ok (aset [] 1 101) :=
  ⟨c9_unverified_positional_mapping.1 "F" [] [7] [] [] ⟨[], []⟩ 0 1 7
      (by decide) (by rfl) (by rfl) (by rfl) (by decide),
   c9_unverified_positional_mapping.2 "F" [(1, [("label", JValue.jstr "A")])] [] [] 1 101
      (by rfl) (Or.inr ⟨by rfl, by rfl⟩)⟩

/-- **C6** — during per-form alignment in the dependency updater, when the
positional candidate fails for a source question whose record exists, and
two or more unconsumed target questions of the form share its full
signature, the step raises the ambiguity error naming the candidate set
instead of choosing; the same uniqueness rule governs the loose-signature
retry (no full-signature candidate, two or more loose candidates). -/
theorem c6_ambiguity_raises :
    ∀ (name : String) (srcQs : QBank) (tgt_ids : List Int)
      (tgtFull : List (Int × String)) (tgtLoose : List (Int × LooseSig))
      (st : DepSync.DepState) (index : Nat) (src_id : Int) (q : Question),
      alookup st.qmap src_id = none →
      alookup srcQs src_id = some q →
      DepSync.depPositional tgtFull tgtLoose st.used tgt_ids index
        (some (DepSync.sanitize_question q))
        (some (alookup q "label", alookup q "question_type")) = none →
      (2 ≤ (tgt_ids.filter (fun tid => !st.used.contains tid
            && alookup tgtFull tid == some (DepSync.sanitize_question q))).length
        ∨ (tgt_ids.filter (fun tid => !st.used.contains tid
            && alookup tgtFull tid == some (DepSync.sanitize_question q)) = []
          ∧ 2 ≤ (tgt_ids.filter (fun tid => !st.used.contains tid
            && (match alookup tgtLoose tid with
                | some dl => pyEqLoose dl (alookup q "label", alookup q "question_type")
                | none => false))).length)) →
      ∃ cands,
        DepSync.depStep name srcQs tgt_ids tgtFull tgtLoose st index src_id
          = .error (.ambiguous src_id name cands)
        ∧ 2 ≤ cands.length := by
  intro name srcQs tgt_ids tgtFull tgtLoose st index src_id q hq hs hpos hdisj
  rcases hdisj with hfull | ⟨hempty, hloose⟩
  · obtain ⟨a, b, l, hC⟩ : ∃ a b l,
        tgt_ids.filter (fun tid => !st.used.contains tid
          && alookup tgtFull tid == some (DepSync.sanitize_question q)) = a :: b :: l := by
      cases hC : tgt_ids.filter (fun tid => !st.used.contains tid
          && alookup tgtFull tid == some (DepSync.sanitize_question q)) with
      | nil => rw [hC] at hfull; simp at hfull
      | cons a tl =>
        cases tl with
        | nil => rw [hC] at hfull; simp at hfull
        | cons b l => exact ⟨a, b, l, rfl⟩
    refine ⟨a :: b :: l, ?_, by simp⟩
    simp only [DepSync.depStep, hq, hs, Option.map_some', hpos, hC]
  · obtain ⟨a, b, l, hC⟩ : ∃ a b l,
        tgt_ids.filter (fun tid => !st.used.contains tid
          && (match alookup tgtLoose tid with
              | some dl => pyEqLoose dl (alookup q "label", alookup q "question_type")
              | none => false)) = a :: b :: l := by
      cases hC : tgt_ids.filter (fun tid => !st.used.contains tid
          && (match alookup tgtLoose tid with
              | some dl => pyEqLoose dl (alookup q "label", alookup q "question_type")
              | none => false)) with
      | nil => rw [hC] at hloose; simp at hloose
      | cons a tl =>
        cases tl with
        | nil => rw [hC] at hloose; simp at hloose
        | cons b l => exact ⟨a, b, l, rfl⟩
    refine ⟨a :: b :: l, ?_, by simp⟩
    simp only [DepSync.depStep, hq, hs, Option.map_some', hpos, hempty, hC]

/-- Witness for C6: source question 1 (label `A`) whose positional target
(label `B`) mismatches, with two unconsumed targets labelled `A`. -/
theorem c6_witness :
    ∃ cands,
      DepSync.depStep "F"
        [(1, [("label", JValue.jstr "A")])]
        [13, 11, 12]
        [(13, DepSync.sanitize_question [("label", JValue.jstr "B")]),
         (11, DepSync.sanitize_question [("label", JValue.jstr "A")]),
         (12, DepSync.sanitize_question [("label", JValue.jstr "A")])]
        [(13, (some (JValue.jstr "B"), none)),
         (11, (some (JValue.jstr "A"), none)),
         (12, (some (JValue.jstr "A"), none))]
        ⟨[], []⟩ 0 1
        = .error (.ambiguous 1 "F" cands)
      ∧ 2 ≤ cands.length :=
  c6_ambiguity_raises "F"
    [(1, [("label", JValue.jstr "A")])]
    [13, 11, 12]
    [(13, DepSync.sanitize_question [("label", JValue.jstr "B")]),
     (11, DepSync.sanitize_question [("label", JValue.jstr "A")]),
     (12, DepSync.sanitize_question [("label", JValue.jstr "A")])]
    [(13, (some (JValue.jstr "B"), none)),
     (11, (some (JValue.jstr "A"), none)),
     (12, (some (JValue.jstr "A"), none))]
    ⟨[], []⟩ 0 1 [("label", JValue.jstr "A")]
    (by rfl) (by rfl) (by rfl) (Or.inl (by decide))

/-! ### Helper lemmas for C4: insertions persist, conflicts raise -/

theorem formPairStep_ok_shape (name : String) (srcQs tgtQs : QBank)
    (qmap : List (Int × Int)) (s t : Int) (m : List (Int × Int))
    (h : FormSync.formPairStep name srcQs tgtQs qmap s t = .ok m) :
    m = aset qmap s t ∧ (alookup qmap s = none ∨ alookup qmap s = some t) := by
  unfold FormSync.formPairStep at h
  simp only [bind, Except.bind, pure, Except.pure, throw, throwThe,
    MonadExceptOf.throw] at h
  repeat any_goals split at h
  any_goals cases h
  all_goals simp_all

theorem formPairStep_preserves (name : String) (srcQs tgtQs : QBank)
    (qmap : List (Int × Int)) (s t : Int) (m : List (Int × Int))
    (h : FormSync.formPairStep name srcQs tgtQs qmap s t = .ok m)
    (x y : Int) (hx : alookup qmap x = some y) : alookup m x = some y := by
  obtain ⟨hm, hcase⟩ := formPairStep_ok_shape name srcQs tgtQs qmap s t m h
  subst hm
  by_cases hxs : x = s
  · subst hxs
    rcases hcase with hnone | hsome
    · rw [hnone] at hx; cases hx
    · rw [hsome] at hx
      rw [alookup_aset_self]
      exact hx.symm ▸ rfl
  · rw [alookup_aset_ne qmap s x t hxs]
    exact hx

theorem formPairs_fold_ok (name : String) (srcQs tgtQs : QBank) :
    ∀ (pairs : List (Int × Int)) (qmap m : List (Int × Int)),
      pairs.foldlM (fun acc p => FormSync.formPairStep name srcQs tgtQs acc p.1 p.2) qmap
        = .ok m →
      (∀ x y, alookup qmap x = some y → alookup m x = some y)
      ∧ ∀ p ∈ pairs, alookup m p.1 = some p.2 := by
  intro pairs
  induction pairs with
  | nil =>
    intro qmap m h
    simp [List.foldlM, pure, Except.pure] at h
    subst h
    exact ⟨fun x y hx => hx, by simp⟩
  | cons p pairs ih =>
    intro qmap m h
    rw [List.foldlM_cons] at h
    cases hstep : FormSync.formPairStep name srcQs tgtQs qmap p.1 p.2 with
    | error e => rw [hstep] at h; simp only [Bind.bind, Except.bind] at h; cases h
    | ok m1 =>
      rw [hstep] at h
      simp only [Bind.bind, Except.bind] at h
      obtain ⟨hpers, hmem⟩ := ih m1 m h
      refine ⟨fun x y hx => hpers x y (formPairStep_preserves name srcQs tgtQs qmap p.1 p.2 m1 hstep x y hx), ?_⟩
      intro p2 hp2
      rcases List.mem_cons.mp hp2 with hp2 | hp2
      · rw [hp2]
        exact hpers p.1 p.2 (by
          obtain ⟨hm, _⟩ := formPairStep_ok_shape name srcQs tgtQs qmap p.1 p.2 m1 hstep
          subst hm
          exact alookup_aset_self qmap p.1 p.2)
      · exact hmem p2 hp2

theorem formProcessForm_ok (srcQs tgtQs : QBank) (tgtByName : List (String × Form))
    (qmap : List (Int × Int)) (src : Form) (m : List (Int × Int))
    (h : FormSync.formProcessForm srcQs tgtQs tgtByName qmap src = .ok m) :
    (∀ x y, alookup qmap x = some y → alookup m x = some y)
    ∧ ∀ ps, FormSync.formPairsOfForm tgtByName src = .ok ps →
        ∀ p ∈ ps, alookup m p.1 = some p.2 := by
  unfold FormSync.formProcessForm at h
  unfold FormSync.formPairsOfForm
  cases hname : alookup tgtByName src.display_name with
  | none =>
    rw [hname] at h
    cases h
    exact ⟨fun x y hx => hx, by intro ps hps p hp; cases hps; simp at hp⟩
  | some tgt =>
    cases hs : src.question_ids.mapM FormSync.to_int with
    | error e =>
      rw [hname] at h
      simp only [hs, Bind.bind, Except.bind] at h
      cases h
    | ok sids =>
      cases ht : tgt.question_ids.mapM FormSync.to_int with
      | error e =>
        rw [hname] at h
        simp only [hs, ht, Bind.bind, Except.bind] at h
        cases h
      | ok tids =>
        rw [hname] at h
        simp only [hs, ht, Bind.bind, Except.bind, throw, throwThe,
          MonadExceptOf.throw, pure, Except.pure] at h ⊢
        split at h
        · cases h
        · obtain ⟨hpers, hmem⟩ := formPairs_fold_ok src.display_name srcQs tgtQs
            (sids.zip tids) qmap m h
          refine ⟨hpers, ?_⟩
          intro ps hps p hp
          cases hps
          exact hmem p hp

theorem formBuild_fold_ok (srcQs tgtQs : QBank) (tgtByName : List (String × Form)) :
    ∀ (forms : List Form) (qmap m : List (Int × Int)),
      forms.foldlM (FormSync.formProcessForm srcQs tgtQs tgtByName) qmap = .ok m →
      (∀ x y, alookup qmap x = some y → alookup m x = some y)
      ∧ ∀ src ∈ forms, ∀ ps,
          FormSync.formPairsOfForm tgtByName src = .ok ps →
          ∀ p ∈ ps, alookup m p.1 = some p.2 := by
  intro forms
  induction forms with
  | nil =>
    intro qmap m h
    simp [List.foldlM, pure, Except.pure] at h
    subst h
    exact ⟨fun x y hx => hx, by simp⟩
  | cons src forms ih =>
    intro qmap m h
    rw [List.foldlM_cons] at h
    cases hstep : FormSync.formProcessForm srcQs tgtQs tgtByName qmap src with
    | error e => rw [hstep] at h; simp only [Bind.bind, Except.bind] at h; cases h
    | ok m1 =>
      rw [hstep] at h
      simp only [Bind.bind, Except.bind] at h
      obtain ⟨hpers1, hmem1⟩ := formProcessForm_ok srcQs tgtQs tgtByName qmap src m1 hstep
      obtain ⟨hpers2, hmem2⟩ := ih m1 m h
      refine ⟨fun x y hx => hpers2 x y (hpers1 x y hx), ?_⟩
      intro f hf ps hps p hp
      rcases List.mem_cons.mp hf with hf | hf
      · subst hf
        exact hpers2 p.1 p.2 (hmem1 ps hps p hp)
      · exact hmem2 f hf ps hps p hp

/-- **C4** — the question IDMap stays a function throughout construction
and conflicting re-insertions raise instead of overwriting: (i) the form
updater's pair step raises the conflict error whenever the source ID is
already mapped to a different target; (ii) a successful pair step never
changes any existing entry; (iii) the dependency updater's per-question
step leaves the map untouched for an already-mapped source (it only marks
the target as consumed); (iv) when the form updater's `build_question_map`
succeeds, every positional pair of every matched form is present in the
final map — so no insertion was ever overwritten by a later conflicting
one. -/
theorem c4_idmap_function_no_overwrite :
    (∀ (name : String) (srcQs tgtQs : QBank) (qmap : List (Int × Int)) (s t e : Int),
      alookup qmap s = some e → e ≠ t →
      FormSync.formPairStep name srcQs tgtQs qmap s t = .error (.conflict s e t))
    ∧ (∀ (name : String) (srcQs tgtQs : QBank) (qmap : List (Int × Int))
        (s t : Int) (m : List (Int × Int)),
      FormSync.formPairStep name srcQs tgtQs qmap s t = .ok m →
      ∀ x y, alookup qmap x = some y → alookup m x = some y)
    ∧ (∀ (name : String) (srcQs : QBank) (tgt_ids : List Int)
        (tgtFull : List (Int × String)) (tgtLoose : List (Int × LooseSig))
        (st : DepSync.DepState) (i : Nat) (s e : Int),
      alookup st.qmap s = some e →
      ∃ used2, DepSync.depStep name srcQs tgt_ids tgtFull tgtLoose st i s
        = .ok ⟨st.qmap, used2⟩)
    ∧ (∀ (source_forms target_forms : List Form) (srcQs tgtQs : QBank)
        (m : List (Int × Int)),
      FormSync.build_question_map source_forms target_forms srcQs tgtQs = .ok m →
      ∀ src ∈ source_forms, ∀ ps,
        FormSync.formPairsOfForm (indexFormsByName target_forms) src = .ok ps →
        ∀ p ∈ ps, alookup m p.1 = some p.2) := by
  refine ⟨?_, ?_, ?_, ?_⟩
  · intro name srcQs tgtQs qmap s t e hq hne
    simp only [FormSync.formPairStep, hq, Bind.bind, Except.bind, throw, throwThe,
      MonadExceptOf.throw, pure, Except.pure]
    rw [if_pos hne]
  · intro name srcQs tgtQs qmap s t m h
    exact formPairStep_preserves name srcQs tgtQs qmap s t m h
  · intro name srcQs tgt_ids tgtFull tgtLoose st i s e hq
    simp only [DepSync.depStep, hq]
    by_cases hmem : e ∈ tgt_ids
    · exact ⟨saddElem st.used e, by rw [if_pos hmem]⟩
    · exact ⟨st.used, by rw [if_neg hmem]⟩
  · intro source_forms target_forms srcQs tgtQs m h src hsrc ps hps p hp
    unfold FormSync.build_question_map at h
    cases hv1 : FormSync.validate_form_entries "Source forms library" 0 source_forms with
    | error e =>
      simp only [hv1, Bind.bind, Except.bind] at h
      cases h
    | ok u =>
      cases hv2 : FormSync.index_forms_by_name target_forms "Target forms library" with
      | error e =>
        simp only [hv1, hv2, Bind.bind, Except.bind] at h
        cases h
      | ok idx =>
        simp only [hv1, hv2, Bind.bind, Except.bind] at h
        have hidx : idx = indexFormsByName target_forms := by
          unfold FormSync.index_forms_by_name at hv2
          cases hv3 : FormSync.validate_form_entries "Target forms library" 0 target_forms with
          | error e =>
            simp only [hv3, Bind.bind, Except.bind] at hv2
            cases hv2
          | ok u2 =>
            simp only [hv3, Bind.bind, Except.bind, pure, Except.pure] at hv2
            cases hv2
            rfl
        subst hidx
        exact (formBuild_fold_ok srcQs tgtQs _ source_forms [] m h).2 src hsrc ps hps p hp

/-- Witness for C4: each conjunct at a concrete input — a conflicting
re-insertion errors; a successful insertion preserves the prior entry
`2 ↦ 7`; an already-mapped source leaves the map unchanged; a successful
build contains its positional pair. -/
theorem c4_witness :
    FormSync.formPairStep "F" [] [] [(1, 50)] 1 60 = .error (.conflict 1 50 60)
    ∧ alookup (aset ([(2, 7)] : List (Int × Int)) 1 9) 2 = some 7
    ∧ (∃ used2, DepSync.depStep "F" [] [] [] [] ⟨[(1, 5)], []⟩ 0 1 = .ok ⟨[(1, 5)], used2⟩)
    ∧ alookup ([(1, 101)] : List (Int × Int)) ((1, 101) : Int × Int).1
        = some ((1, 101) : Int × Int).2 :=
  ⟨c4_idmap_function_no_overwrite.1 "F" [] [] [(1, 50)] 1 60 50 (by rfl) (by decide),
   c4_idmap_function_no_overwrite.2.1 "F" [] [] [(2, 7)] 1 9 (aset [(2, 7)] 1 9)
     (by rfl) 2 7 (by rfl),
   c4_idmap_function_no_overwrite.2.2.1 "F" [] [] [] [] ⟨[(1, 5)], []⟩ 0 1 5 (by rfl),
   c4_idmap_function_no_overwrite.2.2.2 [⟨"F", [JValue.jint 1]⟩]
     [⟨"F", [JValue.jint 101]⟩] [] [] [(1, 101)] (by rfl)
     ⟨"F", [JValue.jint 1]⟩ (by simp) [(1, 101)] (by rfl) (1, 101) (by simp)⟩

/-! ### Helper lemmas for C5: the canonical serialization is invariant
under field reordering when keys are distinct -/

theorem akeys_aset_of_lookup {β : Type} (l : List (String × β)) (k : String) (v : β)
    (h : (alookup l k).isSome) : akeys (aset l k v) = akeys l := by
  induction l with
  | nil => simp [alookup] at h
  | cons kv l ih =>
    obtain ⟨k2, v2⟩ := kv
    by_cases hk : k2 = k
    · simp [aset, hk, akeys]
    · have hne : ¬(k = k2) := fun hkk => hk hkk.symm
      have h2 : (alookup l k).isSome := by
        have heq : alookup ((k2, v2) :: l) k = alookup l k := by
          simp [alookup, hne]
        rwa [heq] at h
      have hstep : aset ((k2, v2) :: l) k v = (k2, v2) :: aset l k v := by
        simp [aset, hk]
      rw [hstep]
      show k2 :: akeys (aset l k v) = k2 :: akeys l
      rw [ih h2]

theorem sorted_key_strict (l : List (String × String))
    (hs : l.Sorted (fun a b : String × String => a.1 ≤ b.1))
    (hnd : (akeys l).Nodup) :
    l.Sorted (fun a b : String × String => a.1 < b.1) := by
  have hne : l.Pairwise (fun a b : String × String => a.1 ≠ b.1) := by
    have := (List.pairwise_map (f := (Prod.fst : String × String → String))).mp hnd
    exact this
  exact (hs.and hne).imp (fun h => lt_of_le_of_ne h.1 h.2)

theorem sortByKey_eq_of_perm (l1 l2 : List (String × String))
    (hp : l1.Perm l2) (hnd : (akeys l1).Nodup) :
    sortByKey l1 = sortByKey l2 := by
  haveI : IsTotal (String × String) (fun a b => a.1 ≤ b.1) :=
    ⟨fun a b => le_total a.1 b.1⟩
  haveI : IsTrans (String × String) (fun a b => a.1 ≤ b.1) :=
    ⟨fun a b c hab hbc => le_trans hab hbc⟩
  haveI : IsAntisymm (String × String) (fun a b : String × String => a.1 < b.1) :=
    ⟨fun a b h1 h2 => absurd h2 (lt_asymm h1)⟩
  have hperm : (sortByKey l1).Perm (sortByKey l2) :=
    (List.perm_insertionSort _ l1).trans (hp.trans (List.perm_insertionSort _ l2).symm)
  have hnd1 : (akeys (sortByKey l1)).Nodup := by
    have hx : (akeys (sortByKey l1)).Perm (akeys l1) :=
      (List.perm_insertionSort _ l1).map Prod.fst
    exact hx.nodup_iff.mpr hnd
  have hnd2 : (akeys (sortByKey l2)).Nodup :=
    (hperm.map Prod.fst).nodup_iff.mp hnd1
  exact List.eq_of_perm_of_sorted hperm
    (sorted_key_strict _ (List.sorted_insertionSort _ l1) hnd1)
    (sorted_key_strict _ (List.sorted_insertionSort _ l2) hnd2)

theorem akeys_canonFields (fs : List (String × JValue)) :
    akeys (canonFields fs) = akeys fs := by
  rw [canonFields_eq_map]
  simp only [akeys, List.map_map]
  rfl

theorem canonicalize_jobj_perm (fs gs : List (String × JValue))
    (hp : fs.Perm gs) (hnd : (akeys fs).Nodup) :
    canonicalize (.jobj fs) = canonicalize (.jobj gs) := by
  have h1 : (canonFields fs).Perm (canonFields gs) := by
    rw [canonFields_eq_map, canonFields_eq_map]
    exact hp.map _
  have hk : (akeys (canonFields fs)).Nodup := by
    rw [akeys_canonFields]
    exact hnd
  have hsort : sortByKey (canonFields fs) = sortByKey (canonFields gs) :=
    sortByKey_eq_of_perm _ _ h1 hk
  simp [canonicalize, hsort]

theorem filter_keys_nodup (q : Question) (hnd : (akeys q).Nodup) :
    (akeys (q.filter (fun kv => kv.1 ≠ "id"))).Nodup :=
  List.Nodup.sublist ((List.filter_sublist q).map Prod.fst) hnd

theorem sanitizedPayload_keys_nodup (q : Question) (hnd : (akeys q).Nodup) :
    (akeys (FormSync.sanitizedPayload q)).Nodup := by
  simp only [FormSync.sanitizedPayload]
  cases hl : alookup (q.filter (fun kv => kv.1 ≠ "id")) "label" with
  | none =>
    simp only [hl]
    exact filter_keys_nodup q hnd
  | some l =>
    simp only [hl]
    rw [akeys_aset_of_lookup _ _ _ (by rw [hl]; rfl)]
    exact filter_keys_nodup q hnd

/-- **C5 counterexample** — two records that are structurally identical
except for `id` and field order once the inert attribute is stripped from
the label (their normalized id-less payloads are equal), yet the
dependency updater's `sanitize_question` — which performs no label
normalization — produces different signature strings for them. -/
theorem c5_counterexample :
    FormSync.sanitizedPayload
        [("id", JValue.jint 1), ("label", JValue.jstr "<a target=\"_blank\">x")]
      = FormSync.sanitizedPayload
        [("label", JValue.jstr "<a>x"), ("id", JValue.jint 2)]
    ∧ DepSync.sanitize_question
        [("id", JValue.jint 1), ("label", JValue.jstr "<a target=\"_blank\">x")]
      ≠ DepSync.sanitize_question
        [("label", JValue.jstr "<a>x"), ("id", JValue.jint 2)] := by
  exact ⟨rfl, by decide⟩

/-- **C5 (amended)** — the form updater's `sanitize_question` yields
byte-identical signatures for any two records (with distinct field names)
whose id-less, label-normalized payloads agree up to field order; the
dependency updater's variant does not normalize the label, so it
guarantees byte-identical signatures only when the id-less payloads agree
up to field order WITHOUT stripping.  Both exclude the `id` field and
serialize with sorted keys and no incidental whitespace. -/
theorem c5_amended_signature_determinism :
    (∀ q1 q2 : Question, (akeys q1).Nodup → (akeys q2).Nodup →
      (FormSync.sanitizedPayload q1).Perm (FormSync.sanitizedPayload q2) →
      FormSync.sanitize_question q1 = FormSync.sanitize_question q2)
    ∧ (∀ q1 q2 : Question, (akeys q1).Nodup → (akeys q2).Nodup →
      (q1.filter (fun kv => kv.1 ≠ "id")).Perm (q2.filter (fun kv => kv.1 ≠ "id")) →
      DepSync.sanitize_question q1 = DepSync.sanitize_question q2) := by
  constructor
  · intro q1 q2 h1 h2 hp
    show canonicalize (.jobj (FormSync.sanitizedPayload q1))
      = canonicalize (.jobj (FormSync.sanitizedPayload q2))
    exact canonicalize_jobj_perm _ _ hp (sanitizedPayload_keys_nodup q1 h1)
  · intro q1 q2 h1 h2 hp
    exact canonicalize_jobj_perm _ _ hp (filter_keys_nodup q1 h1)

/-- Witness for the amended C5: reordered fields and differing `id`s give
identical signatures under both sanitizers. -/
theorem c5_amended_witness :
    FormSync.sanitize_question
        [("id", JValue.jint 1), ("a", JValue.jint 3), ("label", JValue.jstr "L")]
      = FormSync.sanitize_question
        [("label", JValue.jstr "L"), ("a", JValue.jint 3), ("id", JValue.jint 2)]
    ∧ DepSync.sanitize_question [("id", JValue.jint 1), ("a", JValue.jint 3)]
      = DepSync.sanitize_question [("a", JValue.jint 3), ("id", JValue.jint 2)] :=
  ⟨c5_amended_signature_determinism.1
      [("id", JValue.jint 1), ("a", JValue.jint 3), ("label", JValue.jstr "L")]
      [("label", JValue.jstr "L"), ("a", JValue.jint 3), ("id", JValue.jint 2)]
      (by decide) (by decide)
      (List.Perm.swap ("label", JValue.jstr "L") ("a", JValue.jint 3) []),
   c5_amended_signature_determinism.2
      [("id", JValue.jint 1), ("a", JValue.jint 3)]
      [("a", JValue.jint 3), ("id", JValue.jint 2)]
      (by decide) (by decide) (List.Perm.refl _)⟩

/-- **C8** — when the write phase of `sync_ids` emits output through the
textual-substring branch, the emitted text is exactly the text produced
by the per-ID patching loop with every replacement count matching, and
re-parsing it yields a value deep-equal (Python `==`) to the tree the
structural `replace_ids` rewriter produced from the same input and maps;
every divergence — count mismatch, unparsable text, or structural
inequality — is an error of the phase, which emits nothing. -/
theorem c8_textual_output_verified :
    ∀ (write : Bool) (original_text : String) (form_map question_map : List (Int × Int))
      (workflow : JValue) (t : String),
      FormSync.sync_ids_write_phase write original_text form_map question_map workflow
        = .ok (some (true, t)) →
      FormSync.patch_text original_text
          (FormSync.replace_ids form_map question_map workflow []).2 = .ok t
      ∧ ∃ parsed, jsonLoads t = .ok parsed
          ∧ pyEq parsed (FormSync.replace_ids form_map question_map workflow []).1 = true := by
  intro write original_text form_map question_map workflow t h
  simp only [FormSync.sync_ids_write_phase] at h
  split at h
  · split at h
    · cases h
    · rename_i txt hp
      split at h
      · cases h
      · rename_i parsed hl
        split at h
        · cases h
        · rename_i hcond
          simp only [Except.ok.injEq, Option.some.injEq, Prod.mk.injEq] at h
          obtain ⟨-, ht⟩ := h
          subst ht
          refine ⟨hp, parsed, hl, ?_⟩
          simpa using hcond
  · split at h
    · simp at h
    · simp at h

/-- Witness for C8: on the document text `[42]` with question map
`{42: 99}`, the phase emits `[99]`, whose re-parse is deep-equal to the
structural rewrite. -/
theorem c8_witness :
    FormSync.patch_text "[42]"
        (FormSync.replace_ids [] [(42, 99)] (JValue.jarr [JValue.jint 42]) []).2
      = .ok "[99]"
    ∧ ∃ parsed, jsonLoads "[99]" = .ok parsed
        ∧ pyEq parsed
            (FormSync.replace_ids [] [(42, 99)] (JValue.jarr [JValue.jint 42]) []).1
          = true :=
  c8_textual_output_verified true "[42]" [] [(42, 99)]
    (JValue.jarr [JValue.jint 42]) "[99]" (by rfl)
